import Mathlib

/-! PSP: platform support package bring-up, time and watchdog.

A shallow embedding of four C sources of the PSP:

* `fsw/nos-linux/src/cfe_psp_start.c`   (sequencer `main`, tick divider `CFE_PSP_TimerHandler`)
* `fsw/mares-rtems/src/cfe_psp_start.c` (sequencer `CFE_PSP_Main`, `CFE_PSP_SetupSystemTimer`)
* `fsw/mares-rtems/src/cfe_psp_timer.c` (hardware time registers)
* `fsw/mares-rtems/src/cfe_psp_watchdog.c` (hardware watchdog registers)

Conventions: a C `uint32` is a `Nat` (reduced `% 2^32` where the C code does arithmetic
that can wrap), a C `int32` status is an `Int`, memory-mapped registers are a register
file `Nat → Nat` indexed by address, and a sequencer is a pure function from the results
of the external calls it makes to the list of calls it performs.
-/

namespace PSP

/-! ## Tick divider (nos-linux `CFE_PSP_TimerHandler`) -/

/-- The `#define TICKS_PER_SECOND 10` of nos-linux `cfe_psp_start.c`. -/
def TICKS_PER_SECOND : Nat := 10

/-- The state the tick handler touches: the global `uint32 TimerCounter` and the number
of times `CFE_PSP_1HZ_FUNCTION` has been invoked so far. -/
structure TickState where
  TimerCounter : Nat
  Calls1Hz : Nat
  deriving DecidableEq, Repr

/-- The state at process start: `TimerCounter` is a zero-initialised global and the
1Hz callback has not been invoked. -/
def TickState.initial : TickState := ⟨0, 0⟩

/-- The body of `CFE_PSP_TimerHandler`:
`if ((TimerCounter % TICKS_PER_SECOND) == 0) { CFE_PSP_1HZ_FUNCTION(); TimerCounter = 0; }`
followed by `TimerCounter++` on a `uint32`. -/
def CFE_PSP_TimerHandler (s : TickState) : TickState :=
  let s1 : TickState :=
    if s.TimerCounter % TICKS_PER_SECOND = 0 then
      { TimerCounter := 0, Calls1Hz := s.Calls1Hz + 1 }
    else s
  { s1 with TimerCounter := (s1.TimerCounter + 1) % 2 ^ 32 }

/-- The function `CFE_PSP_NosTickCallback(time)`: it ignores the simulation time and calls
`CFE_PSP_TimerHandler(0)`. -/
def CFE_PSP_NosTickCallback (_time : Nat) (s : TickState) : TickState :=
  CFE_PSP_TimerHandler s

/-- The state after `n` calls of `CFE_PSP_TimerHandler`, one per tick. -/
def afterTicks : Nat → TickState → TickState
  | 0, s => s
  | n + 1, s => CFE_PSP_TimerHandler (afterTicks n s)

/-! ## Constants declared outside the four sources -/

/-- Values of the constants that the sources use but that are declared in headers and
configuration objects outside them (`osapi.h`, `cfe_psp.h`, `cfe_psp_config.h`,
`target_config.h`).  Every definition that uses one of them takes this record. -/
structure PlatformConfig where
  OS_SUCCESS : Int
  CFE_PSP_RST_TYPE_PROCESSOR : Nat
  CFE_PSP_RST_TYPE_POWERON : Nat
  CFE_PSP_RST_SUBTYPE_POWER_CYCLE : Nat
  CFE_PSP_WATCHDOG_MAX : Nat
  CFE_PSP_NONVOL_STARTUP_FILE : String
  CFE_PSP_CPU_ID : Nat
  CFE_PSP_CPU_NAME : String
  CFE_PSP_SPACECRAFT_ID : Nat

/-- The customary cFE values of the constants, used to evaluate the definitions on
concrete inputs. -/
def PlatformConfig.reference : PlatformConfig where
  OS_SUCCESS := 0
  CFE_PSP_RST_TYPE_PROCESSOR := 1
  CFE_PSP_RST_TYPE_POWERON := 2
  CFE_PSP_RST_SUBTYPE_POWER_CYCLE := 1
  CFE_PSP_WATCHDOG_MAX := 0xFFFFFFFF
  CFE_PSP_NONVOL_STARTUP_FILE := "/cf/cfe_es_startup.scr"
  CFE_PSP_CPU_ID := 1
  CFE_PSP_CPU_NAME := "CPU1"
  CFE_PSP_SPACECRAFT_ID := 0x42

/-! ## Memory-mapped hardware -/

/-- The hardware seen through fixed addresses: the register file (address to the 32-bit
word a read returns) and the bus writes performed so far, oldest first. -/
structure Hardware where
  regs : Nat → Nat
  writes : List (Nat × Nat)

/-- The C expression `*((uint32 *)addr)` read as a value. -/
def Hardware.read (hw : Hardware) (addr : Nat) : Nat := hw.regs addr

/-- The C statement `*((uint32 *)addr) = val`. -/
def Hardware.write (hw : Hardware) (addr val : Nat) : Hardware where
  regs := fun a => if a = addr then val else hw.regs a
  writes := hw.writes ++ [(addr, val)]

/-! ## Timebase abstraction (mares-rtems `cfe_psp_timer.c`) -/

def FPGA_TIME_CMD_REGISTER : Nat := 0x80000900
def FPGA_TIME_SECONDS_REGISTER : Nat := 0x80000904
def FPGA_TIME_SUBSECONDS_REGISTER : Nat := 0x80000908
def FPGA_TIME_LOAD_SECS_REGISTER : Nat := 0x8000090c
def FPGA_TIME_CTRL_REGISTER : Nat := 0x80000910
def FPGA_TIME_VERSION_REGISTER : Nat := 0x80000914
def FPGA_TIME_USOCLK_2MHZ_GENREGISTER : Nat := 0x80000918
def FPGA_TIME_LOAD_CMD_VALUE : Nat := 0xA
def CFE_PSP_TIMER_TICKS_PER_SECOND : Nat := 1000000
def CFE_PSP_TIMER_LOW32_ROLLOVER : Nat := 0

/-- The OSAL time value filled in by `CFE_PSP_GetTime`. -/
structure OS_time_t where
  seconds : Nat
  microsecs : Nat
  deriving DecidableEq, Repr

/-- The function `CFE_PSP_GetTime`: seconds register as read, sub-seconds register
shifted right by 12. -/
def CFE_PSP_GetTime (hw : Hardware) : OS_time_t where
  seconds := hw.read FPGA_TIME_SECONDS_REGISTER
  microsecs := hw.read FPGA_TIME_SUBSECONDS_REGISTER >>> 12

/-- The function `OS_GetLocalMET`: the value stored through `Seconds`. -/
def OS_GetLocalMET (hw : Hardware) : Nat := hw.read FPGA_TIME_SECONDS_REGISTER

/-- The function `OS_SetLocalMET`: two register writes. -/
def OS_SetLocalMET (Seconds : Nat) (hw : Hardware) : Hardware :=
  (hw.write FPGA_TIME_LOAD_SECS_REGISTER Seconds).write
    FPGA_TIME_CMD_REGISTER FPGA_TIME_LOAD_CMD_VALUE

/-- The function `CFE_PSP_Get_Timer_Tick`. -/
def CFE_PSP_Get_Timer_Tick : Nat := 0

/-- The function `CFE_PSP_GetTimerTicksPerSecond`. -/
def CFE_PSP_GetTimerTicksPerSecond : Nat := CFE_PSP_TIMER_TICKS_PER_SECOND

/-- The function `CFE_PSP_GetTimerLow32Rollover`. -/
def CFE_PSP_GetTimerLow32Rollover : Nat := CFE_PSP_TIMER_LOW32_ROLLOVER

/-- The function `CFE_PSP_Get_Timebase`: the pair `(*Tbu, *Tbl)`. -/
def CFE_PSP_Get_Timebase (hw : Hardware) : Nat × Nat :=
  (hw.read FPGA_TIME_SECONDS_REGISTER, hw.read FPGA_TIME_SUBSECONDS_REGISTER)

/-- The function `CFE_PSP_Get_Dec`. -/
def CFE_PSP_Get_Dec : Nat := 0

/-! ## Watchdog monitor (mares-rtems `cfe_psp_watchdog.c`) -/

def FPGA_HEARTBEAT_PSP_MONITOR_MISC_REGISTER : Nat := 0x80500294
def FPGA_HEARTBEAT_PSP_MONITOR_CFG_REGISTER : Nat := 0x80500290
def FPGA_HEARTBEAT_PSP_MISC_STAT_CLEAR : Nat := 0xB1
def FPGA_HEARTBEAT_PSP_MISC_DISABLE : Nat := 0xD0
def FPGA_HEARTBEAT_PSP_MISC_ENABLE : Nat := 0xB1
def FPGA_HEARTBEAT_PSP_MISC_STAT_CLEAR_MASK : Nat := 0x00FF0000
def FPGA_HEARTBEAT_PSP_MISC_DISABLE_MASK : Nat := 0x0000FF00
def FPGA_HEARTBEAT_PSP_MISC_ENABLE_MASK : Nat := 0x000000FF

/-- The watchdog module's view of the world: the hardware and its two globals. -/
structure WatchdogState where
  hw : Hardware
  CFE_PSP_WatchdogValue : Nat
  CFE_PSP_HwWatchdogValue : Nat

/-- The state at load time: both globals are initialised to `CFE_PSP_WATCHDOG_MAX`. -/
def WatchdogState.initial (cfg : PlatformConfig) (hw : Hardware) : WatchdogState where
  hw := hw
  CFE_PSP_WatchdogValue := cfg.CFE_PSP_WATCHDOG_MAX
  CFE_PSP_HwWatchdogValue := cfg.CFE_PSP_WATCHDOG_MAX

/-- The function `CFE_PSP_WatchdogInit`. -/
def CFE_PSP_WatchdogInit (cfg : PlatformConfig) (s : WatchdogState) : WatchdogState :=
  let s1 := { s with CFE_PSP_WatchdogValue := cfg.CFE_PSP_WATCHDOG_MAX }
  { s1 with CFE_PSP_HwWatchdogValue := s1.CFE_PSP_WatchdogValue }

/-- The function `CFE_PSP_WatchdogEnable`. -/
def CFE_PSP_WatchdogEnable (s : WatchdogState) : WatchdogState :=
  let hw1 := s.hw.write FPGA_HEARTBEAT_PSP_MONITOR_MISC_REGISTER FPGA_HEARTBEAT_PSP_MISC_ENABLE
  { s with hw := hw1 }

/-- The function `CFE_PSP_WatchdogDisable`; the written value is
`FPGA_HEARTBEAT_PSP_MISC_DISABLE << 8`. -/
def CFE_PSP_WatchdogDisable (s : WatchdogState) : WatchdogState :=
  let hw1 := s.hw.write FPGA_HEARTBEAT_PSP_MONITOR_MISC_REGISTER
    (FPGA_HEARTBEAT_PSP_MISC_DISABLE <<< 8)
  { s with hw := hw1 }

/-- The function `CFE_PSP_WatchdogService`. -/
def CFE_PSP_WatchdogService (s : WatchdogState) : WatchdogState :=
  let hw1 := s.hw.write FPGA_HEARTBEAT_PSP_MONITOR_CFG_REGISTER s.CFE_PSP_HwWatchdogValue
  { s with hw := hw1 }

/-- The function `CFE_PSP_WatchdogGet`. -/
def CFE_PSP_WatchdogGet (s : WatchdogState) : Nat := s.CFE_PSP_WatchdogValue

/-- The function `CFE_PSP_WatchdogSet`. -/
def CFE_PSP_WatchdogSet (WatchdogValue : Nat) (s : WatchdogState) : WatchdogState :=
  { s with CFE_PSP_WatchdogValue := WatchdogValue, CFE_PSP_HwWatchdogValue := WatchdogValue }

/-! ## Startup sequencers: external calls and runs -/

/-- A function whose address the sequencer hands to an external service. -/
inductive Callback where
  | CFE_PSP_SigintHandler
  | CFE_PSP_NosTickCallback
  deriving DecidableEq, Repr

/-- An argument of a `printf`-style call. -/
inductive PrintArg where
  | int (i : Int)
  | str (s : String)
  deriving DecidableEq, Repr

/-- One call that a sequencer makes to something outside itself, with the arguments
it passes. -/
inductive Event where
  | printf (fmt : String) (args : List PrintArg)
  | OS_printf (fmt : String) (args : List PrintArg)
  | signal_SIGINT (handler : Callback)
  | OS_API_Init
  | CFE_PSP_Panic (status : Int)
  | CFE_PSP_SetupReservedMemoryMap
  | OS_FileSysAddFixedMap (phys_path virt_path : String)
  | CFE_PSP_ModuleInit
  | OS_TimeBaseCreate (name : String)
  | OS_TimeBaseSet (timebase_id start_time interval_time : Nat)
  | sleep (seconds : Nat)
  | CFE_PSP_InitProcessorReservedMemory (reset_type : Nat)
  | nos_init_link
  | NE_create_bus (name uri : String)
  | NE_bus_add_time_tick_callback (callback : Callback)
  | CFE_PSP_MAIN_FUNCTION (reset_type reset_subtype cpu : Nat) (startup_file : String)
  | CFE_PSP_Setup1HzInterrupt
  | OS_IdleLoop
  | CFE_PSP_DeleteProcessorReservedMemory
  | OS_DeleteAllObjects
  | NE_destroy_bus
  | nos_destroy_link
  | exit (status : Int)
  deriving DecidableEq, Repr

/-- What the outside world answers during one run: the status each OSAL call returns,
the identifier `OS_TimeBaseCreate` stores, and whether a shutdown request ever makes
`OS_IdleLoop` return. -/
structure Env where
  OS_API_Init : Int
  OS_FileSysAddFixedMap : Int
  OS_TimeBaseCreate : Int
  timebase_id : Nat
  OS_TimeBaseSet : Int
  shutdownRequested : Bool

/-- How a run ends: the function returned a value, the process was halted by a panic,
it blocks forever in a wait, or the process left through `exit`. -/
inductive Outcome (α : Type) where
  | returned (a : α)
  | panicked (status : Int)
  | blocked
  | exited (status : Int)
  deriving DecidableEq, Repr

/-- A run of sequencer code: the external calls made, oldest first, and how it ended. -/
structure Boot (α : Type) where
  trace : List Event
  outcome : Outcome α

/-- Sequential composition: the second part runs only if the first returned. -/
def Boot.bind {α β : Type} (m : Boot α) (f : α → Boot β) : Boot β :=
  match m.outcome with
  | .returned a => ⟨m.trace ++ (f a).trace, (f a).outcome⟩
  | .panicked st => ⟨m.trace, .panicked st⟩
  | .blocked => ⟨m.trace, .blocked⟩
  | .exited st => ⟨m.trace, .exited st⟩

instance : Monad Boot where
  pure a := ⟨[], .returned a⟩
  bind := Boot.bind

/-- An external call that returns nothing of interest. -/
def call (e : Event) : Boot Unit := ⟨[e], .returned ()⟩

/-- An external call returning the value `a`. -/
def callRet {α : Type} (e : Event) (a : α) : Boot α := ⟨[e], .returned a⟩

/-- Modelled from the spec: `CFE_PSP_Panic` is not among the sources; the spec says a
fatal failure "immediately halts the process (panic) rather than returning an error".
The call is recorded with its status and nothing after it runs. -/
def CFE_PSP_Panic (status : Int) : Boot Unit :=
  ⟨[Event.CFE_PSP_Panic status], .panicked status⟩

/-- The libc call `exit(status)`: the process ends with that status. -/
def exit (status : Int) : Boot Unit :=
  ⟨[Event.exit status], .exited status⟩

/-- The OSAL call `OS_IdleLoop()`: by the comment at its call site it "will wait forever
and return if someone calls OS_ApplicationShutdown(true)". -/
def OS_IdleLoop (env : Env) : Boot Unit :=
  ⟨[Event.OS_IdleLoop], if env.shutdownRequested then .returned () else .blocked⟩

/-- Whether `strncmp(s1, s2, n) == 0` for NUL-terminated strings given by their
characters before the NUL. -/
def strncmp_eq0 : List Char → List Char → Nat → Bool
  | _, _, 0 => true
  | [], [], _ + 1 => true
  | a :: as, b :: bs, n + 1 => a == b && strncmp_eq0 as bs n
  | [], _ :: _, _ + 1 => false
  | _ :: _, [], _ + 1 => false

namespace MaresRtems

/-- The function `CFE_PSP_SetupSystemTimer` of mares-rtems `cfe_psp_start.c`. -/
def CFE_PSP_SetupSystemTimer (cfg : PlatformConfig) (env : Env) : Boot Unit := do
  let SystemTimebase := env.timebase_id
  let Status ← callRet (Event.OS_TimeBaseCreate "cFS-Master") env.OS_TimeBaseCreate
  let Status ←
    (if Status = cfg.OS_SUCCESS then
      callRet (Event.OS_TimeBaseSet SystemTimebase 250000 250000) env.OS_TimeBaseSet
    else
      pure Status)
  (if Status ≠ cfg.OS_SUCCESS then do
    call (Event.OS_printf "CFE_PSP: Error configuring cFS timing: %d\n" [.int Status])
    CFE_PSP_Panic Status
  else
    pure ())

/-- The function `CFE_PSP_Main` of mares-rtems `cfe_psp_start.c`. -/
def CFE_PSP_Main (cfg : PlatformConfig) (env : Env) : Boot Unit := do
  let Status ← callRet Event.OS_API_Init env.OS_API_Init
  (if Status ≠ cfg.OS_SUCCESS then do
    call (Event.printf "CFE_PSP: OS_API_Init() failure\n" [])
    CFE_PSP_Panic Status
  else
    pure ())
  call Event.CFE_PSP_SetupReservedMemoryMap
  let Status ← callRet (Event.OS_FileSysAddFixedMap "/eeprom" "/cf") env.OS_FileSysAddFixedMap
  (if Status ≠ cfg.OS_SUCCESS then
    call (Event.OS_printf "CFE_PSP: OS_FileSysAddFixedMap() failure: %d\n" [.int Status])
  else
    pure ())
  call Event.CFE_PSP_ModuleInit
  CFE_PSP_SetupSystemTimer cfg env
  let reset_type := cfg.CFE_PSP_RST_TYPE_POWERON
  let reset_subtype := cfg.CFE_PSP_RST_SUBTYPE_POWER_CYCLE
  call (Event.CFE_PSP_InitProcessorReservedMemory reset_type)
  call (Event.CFE_PSP_MAIN_FUNCTION reset_type reset_subtype 1 cfg.CFE_PSP_NONVOL_STARTUP_FILE)
  call Event.CFE_PSP_Setup1HzInterrupt

end MaresRtems

namespace NosLinux

def CFE_PSP_CPU_NAME_LENGTH : Nat := 32
def CFE_PSP_RESET_NAME_LENGTH : Nat := 10
def ENGINE_SERVER_URI : String := "tcp://127.0.0.1:12000"
def ENGINE_BUS_NAME : String := "command"

/-- The command line parameters `CFE_PSP_CommandData_t`; a character array is given by
the characters before its terminating NUL. -/
structure CFE_PSP_CommandData_t where
  ResetType : String
  GotResetType : Nat
  SubType : Nat
  GotSubType : Nat
  CpuName : String
  GotCpuName : Nat
  CpuId : Nat
  GotCpuId : Nat
  SpacecraftId : Nat
  GotSpacecraftId : Nat
  deriving DecidableEq, Repr

/-- The function `CFE_PSP_ProcessArgumentDefaults`: the updated `*CommandData`. -/
def CFE_PSP_ProcessArgumentDefaults (cfg : PlatformConfig) (CommandData : CFE_PSP_CommandData_t) :
    Boot CFE_PSP_CommandData_t := do
  let CommandData ←
    (if CommandData.GotResetType = 0 then do
      call (Event.printf "CFE_PSP: Default Reset Type = PO\n" [])
      pure { CommandData with ResetType := "PO", GotResetType := 1 }
    else
      pure CommandData)
  let CommandData ←
    (if CommandData.GotSubType = 0 then do
      call (Event.printf "CFE_PSP: Default Reset SubType = 1\n" [])
      pure { CommandData with SubType := 1, GotSubType := 1 }
    else
      pure CommandData)
  let CommandData ←
    (if CommandData.GotCpuId = 0 then do
      call (Event.printf "CFE_PSP: Default CPU ID = %d\n" [.int cfg.CFE_PSP_CPU_ID])
      pure { CommandData with CpuId := cfg.CFE_PSP_CPU_ID, GotCpuId := 1 }
    else
      pure CommandData)
  let CommandData ←
    (if CommandData.GotSpacecraftId = 0 then do
      call (Event.printf "CFE_PSP: Default Spacecraft ID = %d\n"
        [.int cfg.CFE_PSP_SPACECRAFT_ID])
      pure { CommandData with SpacecraftId := cfg.CFE_PSP_SPACECRAFT_ID, GotSpacecraftId := 1 }
    else
      pure CommandData)
  (if CommandData.GotCpuName = 0 then do
    call (Event.printf "CFE_PSP: Default CPU Name: %s\n" [.str cfg.CFE_PSP_CPU_NAME])
    pure { CommandData with
      CpuName := String.mk (cfg.CFE_PSP_CPU_NAME.toList.take CFE_PSP_CPU_NAME_LENGTH),
      GotCpuName := 1 }
  else
    pure CommandData)

/-- The function `main` of nos-linux `cfe_psp_start.c` from the call of
`CFE_PSP_ProcessArgumentDefaults` on; `CommandData` is the global as the `getopt_long`
loop left it.  The copies of the spacecraft id, CPU id and CPU name into their globals
make no external call and are not part of the run.  The pair bound after
`OS_TimeBaseCreate` is `(time_status, sys_timebase_id)`; `main` never reads either
again. -/
def main (cfg : PlatformConfig) (env : Env) (CommandData : CFE_PSP_CommandData_t) :
    Boot Int := do
  let CommandData ← CFE_PSP_ProcessArgumentDefaults cfg CommandData
  let reset_type ←
    (if strncmp_eq0 "PR".toList CommandData.ResetType.toList 2 = true then do
      call (Event.printf "CFE_PSP: Starting the cFE with a PROCESSOR reset.\n" [])
      pure cfg.CFE_PSP_RST_TYPE_PROCESSOR
    else do
      call (Event.printf "CFE_PSP: Starting the cFE with a POWER ON reset.\n" [])
      pure cfg.CFE_PSP_RST_TYPE_POWERON)
  let reset_subtype := CommandData.SubType
  call (Event.signal_SIGINT Callback.CFE_PSP_SigintHandler)
  let Status ← callRet Event.OS_API_Init env.OS_API_Init
  (if Status ≠ cfg.OS_SUCCESS then do
    call (Event.printf "CFE_PSP: OS_API_Init() failure\n" [])
    CFE_PSP_Panic Status
  else
    pure ())
  let time_status ← callRet (Event.OS_TimeBaseCreate "cFS-Master") env.OS_TimeBaseCreate
  let _ ←
    (if time_status = cfg.OS_SUCCESS then do
      let time_status ←
        callRet (Event.OS_TimeBaseSet env.timebase_id 50000 50000) env.OS_TimeBaseSet
      pure (time_status, env.timebase_id)
    else
      pure (time_status, 0))
  call Event.CFE_PSP_ModuleInit
  call (Event.sleep 1)
  call (Event.CFE_PSP_InitProcessorReservedMemory reset_type)
  call Event.nos_init_link
  call (Event.NE_create_bus ENGINE_BUS_NAME ENGINE_SERVER_URI)
  call (Event.NE_bus_add_time_tick_callback Callback.CFE_PSP_NosTickCallback)
  call (Event.CFE_PSP_MAIN_FUNCTION reset_type reset_subtype 1 cfg.CFE_PSP_NONVOL_STARTUP_FILE)
  OS_IdleLoop env
  call (Event.OS_printf "\nCFE_PSP: Control-C Captured - Exiting cFE\n" [])
  call Event.CFE_PSP_DeleteProcessorReservedMemory
  call (Event.OS_printf
    "CFE_PSP: NOTE: After quitting the cFE with a Control-C signal, it MUST be started next time\n"
    [])
  call (Event.OS_printf "     with a Poweron Reset ( --reset PO ). \n" [])
  call Event.OS_DeleteAllObjects
  call Event.NE_destroy_bus
  call Event.nos_destroy_link
  return 0

/-- The banner text of `print_splash`. -/
def splash : String :=
  String.join [
    "   \x1b[1;37m*                                      *                    *\n",
    "       *                                                  *                *             \n",
    "\x1b[1;37m            ]]]]]]]]]]]]  ]]]]]]]]]]]]]]]]]  ]]]]]]]]]]]]]]]]            ]]]]]]\x1b[0m\n",
    "\x1b[32m          ]]]]]]]]]]]]]  ]]]]]]]]]]]]]]]]]  ]]]]]]]]]]]]]]]]            ]]]]]] \x1b[0m\n",
    "\x1b[1;33m    \x1b[1;37m*\x1b[1;33m    ]]]]]]]]]]]]]  ]]]]]]]]]]]]]]]]]  ]]]]]]]]]]]]]]]]            ]]]]]]  \x1b[0m\n",
    "\x1b[33m         ]]]]]]              ]]]]]]       ]]]]]]]                     ]]]]]]   \x1b[0m\n",
    "\x1b[1;31m         ]]]]]]]]       \x1b[1;37m*\x1b[0m\x1b[1;31m   ]]]]]]       ]]]]]]]]]]]]]]   ]]]]]]]]   ]]]]]]    \x1b[0m\n",
    "\x1b[1;35m \x1b[1;37m*\x1b[1;35m        ]]]]]]]]         ]]]]]]       ]]]]]]]]]]]]]]   ]]]]]]]]   ]]]]]]     \x1b[0m\n",
    "\x1b[1;34m             ]]]]]]      ]]]]]]]  \x1b[1;37m*\x1b[1;34m    ]]]]]]]                     ]]]]]]      \x1b[0m\n",
    "\x1b[1;37m   ]]]]]]]]]]]]]]]      ]]]]]]]       ]]]]]]]   FLIGHT SOFTWARE   ]]]]]]     *  \x1b[0m\n",
    "\x1b[37m  ]]]]]]]]]]]]]]]      ]]]]]]]       ]]]]]]]                     ]]]]]]        \x1b[0m\n",
    "\x1b[1;30m ]]]]]]]]]]]]]]       ]]]]]]]       ]]]]]]]                     ]]]]]]\x1b[0m\n",
    "\x1b[1;37m      *                        *                        *                         *\n",
    " *                                     *                                *               *\n",
    "                *\n",
    "\n"]

/-- The function `print_splash`: `printf("%s", splash)`. -/
def print_splash : Boot Unit :=
  call (Event.printf "%s" [.str splash])

/-- The conversion of a C `long` to `uint32` (reduction modulo 2^32). -/
def uint32_of_long (v : Int) : Nat := (v % 2 ^ 32).toNat

/-- The C cast `(int)` of a `uint32`. -/
def int_of_uint32 (n : Nat) : Int := if n < 2 ^ 31 then n else (n : Int) - 2 ^ 32

/-- The function `CFE_PSP_DisplayUsage`: the usage text, then `exit(1)`. -/
def CFE_PSP_DisplayUsage (cfg : PlatformConfig) (Name : String) : Boot Unit := do
  call (Event.printf
    "usage : %s [-R <value>] [-S <value>] [-C <value] [-N <value] [-I <value] [-h] \n"
    [.str Name])
  call (Event.printf "\n" [])
  call (Event.printf "        All parameters are optional and can be used in any order\n" [])
  call (Event.printf "\n" [])
  call (Event.printf "        Parameters include:\n" [])
  call (Event.printf "        -R [ --reset ] Reset Type is one of:\n" [])
  call (Event.printf "             PO   for Power On reset ( default )\n" [])
  call (Event.printf "             PR   for Processor Reset\n" [])
  call (Event.printf "        -S [ --subtype ] Reset Sub Type is one of\n" [])
  call (Event.printf "             1   for  Power on ( default )\n" [])
  call (Event.printf "             2   for  Push Button Reset\n" [])
  call (Event.printf "             3   for  Hardware Special Command Reset\n" [])
  call (Event.printf "             4   for  Watchdog Reset\n" [])
  call (Event.printf "             5   for  Reset Command\n" [])
  call (Event.printf "        -C [ --cpuid ]   CPU ID is an integer CPU identifier.\n" [])
  call (Event.printf
    "             The default  CPU ID is from the platform configuration file: %d\n"
    [.int cfg.CFE_PSP_CPU_ID])
  call (Event.printf "        -N [ --cpuname ] CPU Name is a string to identify the CPU.\n" [])
  call (Event.printf
    "             The default  CPU Name is from the platform configuration file: %s\n"
    [.str cfg.CFE_PSP_CPU_NAME])
  call (Event.printf
    "        -I [ --scid ]    Spacecraft ID is an integer Spacecraft identifier.\n"
    [])
  call (Event.printf
    "             The default Spacecraft ID is from the mission configuration file: %d\n"
    [.int cfg.CFE_PSP_SPACECRAFT_ID])
  call (Event.printf "        -h [ --help ]    This message.\n" [])
  call (Event.printf "\n" [])
  call (Event.printf "       Example invocation:\n" [])
  call (Event.printf " \n" [])
  call (Event.printf "       Short form:\n" [])
  call (Event.printf "       %s -R PO -S 1 -C 1 -N CPU1 -I 32\n" [.str Name])
  call (Event.printf "       Long form:\n" [])
  call (Event.printf
    "       %s --reset PO --subtype 1 --cpuid 1 --cpuname CPU1 --scid 32\n"
    [.str Name])
  call (Event.printf " \n" [])
  exit 1

/-- One result of `getopt_long` other than `-1`: the option character it returned and the
value of `optarg`. -/
structure GetoptResult where
  opt : Char
  optarg : String
  deriving DecidableEq, Repr

/-- The `CommandData` global after `memset(&(CommandData), 0, ...)`. -/
def CommandData_zeroed : CFE_PSP_CommandData_t where
  ResetType := ""
  GotResetType := 0
  SubType := 0
  GotSubType := 0
  CpuName := ""
  GotCpuName := 0
  CpuId := 0
  GotCpuId := 0
  SpacecraftId := 0
  GotSpacecraftId := 0

/-- The body of the `switch( opt )` in `main` for one result of `getopt_long`; `strtol`
is the libc conversion of an option argument (called with base 0) and `Name` is
`argv[0]`. -/
def getoptCase (cfg : PlatformConfig) (strtol : String → Int) (Name : String)
    (r : GetoptResult) (CommandData : CFE_PSP_CommandData_t) : Boot CFE_PSP_CommandData_t :=
  if r.opt = 'R' then do
    let CommandData := { CommandData with
      ResetType := String.mk (r.optarg.toList.take CFE_PSP_RESET_NAME_LENGTH) }
    (if (!strncmp_eq0 CommandData.ResetType.toList "PO".toList CFE_PSP_RESET_NAME_LENGTH &&
          !strncmp_eq0 CommandData.ResetType.toList "PR".toList CFE_PSP_RESET_NAME_LENGTH) = true
      then do
        call (Event.printf "\nERROR: Invalid Reset Type: %s\n\n" [.str CommandData.ResetType])
        let CommandData := { CommandData with GotResetType := 0 }
        CFE_PSP_DisplayUsage cfg Name
        pure CommandData
      else do
        call (Event.printf "CFE_PSP: Reset Type: %s\n" [.str r.optarg])
        pure { CommandData with GotResetType := 1 })
  else if r.opt = 'S' then do
    let CommandData := { CommandData with SubType := uint32_of_long (strtol r.optarg) }
    (if CommandData.SubType < 1 ∨ CommandData.SubType > 5 then do
        call (Event.printf "\nERROR: Invalid Reset SubType: %s\n\n" [.str r.optarg])
        let CommandData := { CommandData with SubType := 0, GotSubType := 0 }
        CFE_PSP_DisplayUsage cfg Name
        pure CommandData
      else do
        call (Event.printf "CFE_PSP: Reset SubType: %d\n"
          [.int (int_of_uint32 CommandData.SubType)])
        pure { CommandData with GotSubType := 1 })
  else if r.opt = 'N' then do
    let CommandData := { CommandData with
      CpuName := String.mk (r.optarg.toList.take CFE_PSP_CPU_NAME_LENGTH) }
    call (Event.printf "CFE_PSP: CPU Name: %s\n" [.str CommandData.CpuName])
    pure { CommandData with GotCpuName := 1 }
  else if r.opt = 'C' then do
    let CommandData := { CommandData with CpuId := uint32_of_long (strtol r.optarg) }
    call (Event.printf "CFE_PSP: CPU ID: %d\n" [.int (int_of_uint32 CommandData.CpuId)])
    pure { CommandData with GotCpuId := 1 }
  else if r.opt = 'I' then do
    let CommandData := { CommandData with SpacecraftId := uint32_of_long (strtol r.optarg) }
    call (Event.printf "CFE_PSP: Spacecraft ID: %d\n"
      [.int (int_of_uint32 CommandData.SpacecraftId)])
    pure { CommandData with GotSpacecraftId := 1 }
  else if r.opt = 'h' then do
    CFE_PSP_DisplayUsage cfg Name
    pure CommandData
  else do
    CFE_PSP_DisplayUsage cfg Name
    pure CommandData

/-- The `while( opt != -1 )` loop of `main` over the successive results of
`getopt_long`. -/
def getoptLoop (cfg : PlatformConfig) (strtol : String → Int) (Name : String) :
    List GetoptResult → CFE_PSP_CommandData_t → Boot CFE_PSP_CommandData_t
  | [], CommandData => pure CommandData
  | r :: rest, CommandData =>
    getoptCase cfg strtol Name r CommandData >>= getoptLoop cfg strtol Name rest

/-- The function `main` of nos-linux `cfe_psp_start.c` from its first statement:
banner, zeroed command data, option loop over the results `options` of `getopt_long`,
then the rest of `main`; `Name` is `argv[0]`. -/
def main_from_argv (cfg : PlatformConfig) (env : Env) (strtol : String → Int)
    (Name : String) (options : List GetoptResult) : Boot Int := do
  print_splash
  let CommandData ← getoptLoop cfg strtol Name options CommandData_zeroed
  main cfg env CommandData

end NosLinux

/-! ## Observations on runs, used to state the sequencer properties -/

/-- Whether an external call is a diagnostic print (`printf` or `OS_printf`). -/
def Event.isPrint : Event → Bool
  | .printf _ _ => true
  | .OS_printf _ _ => true
  | _ => false

/-- Whether an external call is the call of the flight-executive entry point. -/
def Event.isEntryPoint : Event → Bool
  | .CFE_PSP_MAIN_FUNCTION _ _ _ _ => true
  | _ => false

/-- Whether an external call is a call of `CFE_PSP_Panic`. -/
def Event.isPanic : Event → Bool
  | .CFE_PSP_Panic _ => true
  | _ => false

/-- The steps of a run: its external calls other than diagnostic prints, in order. -/
def Boot.steps {α : Type} (b : Boot α) : List Event :=
  b.trace.filter (fun e => !e.isPrint)

/-- Two watchdog states agree on the register file and on both watchdog globals. -/
def WatchdogState.sameRegsAndValues (a b : WatchdogState) : Prop :=
  a.hw.regs = b.hw.regs ∧
    a.CFE_PSP_WatchdogValue = b.CFE_PSP_WatchdogValue ∧
    a.CFE_PSP_HwWatchdogValue = b.CFE_PSP_HwWatchdogValue

/-- A run that returns and whose external calls are all diagnostic prints. -/
def Boot.printsAndReturns {α : Type} (m : Boot α) : Prop :=
  (∃ a, m.outcome = Outcome.returned a) ∧ ∀ e ∈ m.trace, e.isPrint = true

/-! ## Observations on the tick divider and the watchdog -/

/-- Whether call number `n + 1` of `CFE_PSP_TimerHandler`, counted from the initial
state, invokes the 1Hz callback: the invocation count goes up during that call. -/
def firesOnCall (n : Nat) : Bool :=
  (afterTicks (n + 1) TickState.initial).Calls1Hz !=
    (afterTicks n TickState.initial).Calls1Hz

/-- The handler described in words as "never resets the counter and only tests counter mod
R and then increments the 32-bit counter (wrapping at 2^32)". -/
def moduloTimerHandler (s : TickState) : TickState :=
  let s1 : TickState :=
    if s.TimerCounter % TICKS_PER_SECOND = 0 then
      { s with Calls1Hz := s.Calls1Hz + 1 }
    else s
  { s1 with TimerCounter := (s1.TimerCounter + 1) % 2 ^ 32 }

/-- The state after `n` calls of `moduloTimerHandler`. -/
def afterTicksModulo : Nat → TickState → TickState
  | 0, s => s
  | n + 1, s => moduloTimerHandler (afterTicksModulo n s)

/-- Whether call number `n + 1` of `moduloTimerHandler`, counted from the initial state,
invokes the 1Hz callback. -/
def firesOnCallModulo (n : Nat) : Bool :=
  (afterTicksModulo (n + 1) TickState.initial).Calls1Hz !=
    (afterTicksModulo n TickState.initial).Calls1Hz

/-- One call of the watchdog interface. -/
inductive WatchdogCall where
  | Init
  | Enable
  | Disable
  | Service
  | Get
  | Set (WatchdogValue : Nat)
  deriving DecidableEq, Repr

/-- The effect of one watchdog call on the state (`CFE_PSP_WatchdogGet` only returns a
value). -/
def WatchdogCall.apply (cfg : PlatformConfig) : WatchdogCall → WatchdogState → WatchdogState
  | .Init, s => CFE_PSP_WatchdogInit cfg s
  | .Enable, s => CFE_PSP_WatchdogEnable s
  | .Disable, s => CFE_PSP_WatchdogDisable s
  | .Service, s => CFE_PSP_WatchdogService s
  | .Get, s => s
  | .Set v, s => CFE_PSP_WatchdogSet v s

/-- The state after a sequence of watchdog calls, first call first. -/
def WatchdogCall.run (cfg : PlatformConfig) : List WatchdogCall → WatchdogState → WatchdogState
  | [], s => s
  | c :: cs, s => WatchdogCall.run cfg cs (c.apply cfg s)

/-- The commanded timeout a call sequence asks for, given the value `v` commanded before
it: the argument of the most recent `Set`, or `CFE_PSP_WATCHDOG_MAX` if an `Init` came
after every `Set`. -/
def WatchdogCall.commanded (cfg : PlatformConfig) : List WatchdogCall → Nat → Nat
  | [], v => v
  | .Set w :: cs, _ => WatchdogCall.commanded cfg cs w
  | .Init :: cs, _ => WatchdogCall.commanded cfg cs cfg.CFE_PSP_WATCHDOG_MAX
  | .Enable :: cs, v => WatchdogCall.commanded cfg cs v
  | .Disable :: cs, v => WatchdogCall.commanded cfg cs v
  | .Service :: cs, v => WatchdogCall.commanded cfg cs v
  | .Get :: cs, v => WatchdogCall.commanded cfg cs v

/-! ## Further observations on runs -/

/-- Whether an external call is a call of `OS_TimeBaseCreate`. -/
def Event.isTimeBaseCreate : Event → Bool
  | .OS_TimeBaseCreate _ => true
  | _ => false

/-- Whether an external call is a call of `OS_TimeBaseSet`. -/
def Event.isTimeBaseSet : Event → Bool
  | .OS_TimeBaseSet _ _ _ => true
  | _ => false

/-- Whether an external call is `CFE_PSP_ModuleInit`. -/
def Event.isModuleInit : Event → Bool
  | .CFE_PSP_ModuleInit => true
  | _ => false

/-- Whether an external call is `CFE_PSP_InitProcessorReservedMemory`. -/
def Event.isInitReservedMemory : Event → Bool
  | .CFE_PSP_InitProcessorReservedMemory _ => true
  | _ => false

/-- Whether an external call registers `CFE_PSP_NosTickCallback` as the tick callback of
the external bus. -/
def Event.isTickCallbackRegistration : Event → Bool
  | .NE_bus_add_time_tick_callback .CFE_PSP_NosTickCallback => true
  | _ => false

/-- Whether an external call is `CFE_PSP_Setup1HzInterrupt`. -/
def Event.isSetup1Hz : Event → Bool
  | .CFE_PSP_Setup1HzInterrupt => true
  | _ => false

/-- The position in `l` of the first call satisfying `p` (the length of `l` if there is
none). -/
def firstIndex (p : Event → Bool) (l : List Event) : Nat :=
  (l.takeWhile (fun e => !p e)).length

/-- The reset type `main` of nos-linux derives from the reset type string: the value
assigned by its `if (strncmp("PR", CommandData.ResetType, 2) == 0)`. -/
def NosLinux.resetTypeOf (cfg : PlatformConfig) (ResetType : String) : Nat :=
  if strncmp_eq0 "PR".toList ResetType.toList 2 = true then cfg.CFE_PSP_RST_TYPE_PROCESSOR
  else cfg.CFE_PSP_RST_TYPE_POWERON

/-! ## The external tick stream -/

/-- What a function registered as a callback does to the tick divider state when it is
invoked with the simulation time `time`: `CFE_PSP_NosTickCallback` is the function of
that name; `CFE_PSP_SigintHandler` only calls `OS_ApplicationShutdown(true)` and leaves
the divider alone. -/
def Callback.onTick : Callback → Nat → TickState → TickState
  | .CFE_PSP_NosTickCallback, time, s => PSP.CFE_PSP_NosTickCallback time s
  | .CFE_PSP_SigintHandler, _, s => s

/-- The callbacks a run has registered on the external bus with
`NE_bus_add_time_tick_callback`, in order of registration. -/
def registeredTickCallbacks (trace : List Event) : List Callback :=
  trace.filterMap fun e =>
    match e with
    | .NE_bus_add_time_tick_callback cb => some cb
    | _ => none

/-- The tick-delivery contract of the external bus: for each tick of the stream, given
by its simulation time, every registered callback is invoked once with that time. -/
def deliverTicks (registered : List Callback) : List Nat → TickState → TickState
  | [], s => s
  | time :: rest, s =>
    deliverTicks registered rest (registered.foldl (fun st cb => cb.onTick time st) s)

/-! ## Concrete inputs on which the definitions are evaluated -/

/-- A run environment in which every OSAL call returns `0` (the reference `OS_SUCCESS`),
the timebase gets identifier `7`, and a shutdown request arrives. -/
def Env.nominal : Env where
  OS_API_Init := 0
  OS_FileSysAddFixedMap := 0
  OS_TimeBaseCreate := 0
  timebase_id := 7
  OS_TimeBaseSet := 0
  shutdownRequested := true

/-- The command data left by the `getopt_long` loop for the arguments `-R PR -S 3`. -/
def NosLinux.commandData_PR_3 : NosLinux.CFE_PSP_CommandData_t where
  ResetType := "PR"
  GotResetType := 1
  SubType := 3
  GotSubType := 1
  CpuName := ""
  GotCpuName := 0
  CpuId := 0
  GotCpuId := 0
  SpacecraftId := 0
  GotSpacecraftId := 0

/-! # Theorems -/

/-! ### Helper lemmas for the tick divider -/

/-- Closed form of the divider state after `n` ticks from the initial state. -/
theorem afterTicks_initial_closed (n : Nat) :
    afterTicks n TickState.initial =
      ⟨if n = 0 then 0 else (n - 1) % 10 + 1, (n + 9) / 10⟩ := by
  induction n with
  | zero => rfl
  | succ k ih =>
    simp only [afterTicks, ih, CFE_PSP_TimerHandler, TICKS_PER_SECOND]
    by_cases hk : k = 0
    · subst hk; rfl
    · simp only [hk, if_false, Nat.add_sub_cancel, Nat.succ_ne_zero]
      by_cases hm : ((k - 1) % 10 + 1) % 10 = 0
      · simp only [hm, if_true]
        refine congrArg₂ TickState.mk ?_ ?_
        · have : k % 10 = 0 := by omega
          omega
        · omega
      · simp only [hm, if_false]
        refine congrArg₂ TickState.mk ?_ ?_
        · have h1 : (k - 1) % 10 + 1 + 1 < 2 ^ 32 := by
            have := Nat.mod_lt (k - 1) (by decide : 10 > 0)
            omega
          rw [Nat.mod_eq_of_lt h1]
          omega
        · omega

/-! ### Claims C1, C2 -/

/-- C1 (as stated, refuted): after one tick the 1Hz callback has already been invoked
once, while `floor(1 / 10) = 0`. -/
theorem C1_floor_count_fails :
    (afterTicks 1 TickState.initial).Calls1Hz = 1 ∧
      (afterTicks 1 TickState.initial).Calls1Hz ≠ 1 / TICKS_PER_SECOND := by
  decide

/-- C1 (amended): starting from `TimerCounter = 0`, after `N` calls of
`CFE_PSP_TimerHandler` the 1Hz callback has been invoked exactly `ceil(N / R)` times,
`R = TICKS_PER_SECOND = 10`. -/
theorem C1_ceil_count (N : Nat) :
    (afterTicks N TickState.initial).Calls1Hz =
      (N + (TICKS_PER_SECOND - 1)) / TICKS_PER_SECOND := by
  rw [afterTicks_initial_closed]
  rfl

/-- C2 (as stated, refuted): after ten ticks `TimerCounter` is `10`, which is neither
`10 mod 10` nor below `R`. -/
theorem C2_mod_counter_fails :
    (afterTicks 10 TickState.initial).TimerCounter = 10 ∧
      (afterTicks 10 TickState.initial).TimerCounter ≠ 10 % TICKS_PER_SECOND ∧
      ¬ (afterTicks 10 TickState.initial).TimerCounter < TICKS_PER_SECOND := by
  decide

/-- C2 (amended): starting from `TimerCounter = 0`, after `N` calls of
`CFE_PSP_TimerHandler` the counter is `0` when `N = 0` and `((N - 1) mod R) + 1`
otherwise, so it always satisfies `0 <= TimerCounter <= R`. -/
theorem C2_counter_value (N : Nat) :
    (afterTicks N TickState.initial).TimerCounter =
        (if N = 0 then 0 else (N - 1) % TICKS_PER_SECOND + 1) ∧
      (afterTicks N TickState.initial).TimerCounter ≤ TICKS_PER_SECOND := by
  rw [afterTicks_initial_closed]
  refine ⟨rfl, ?_⟩
  show (if N = 0 then 0 else (N - 1) % 10 + 1) ≤ 10
  split
  · omega
  · have := Nat.mod_lt (N - 1) (by decide : 10 > 0)
    omega

/-! ### Claim C3 -/

/-- C3 (as stated, refuted): with the sub-seconds register holding the 32-bit value
`0xFFFFFFFF`, `CFE_PSP_GetTime` returns `microsecs = 1048575`, which is not below the
declared resolution `CFE_PSP_TIMER_TICKS_PER_SECOND = 1000000`. -/
theorem C3_subseconds_exceed_resolution :
    (0xFFFFFFFF : Nat) < 2 ^ 32 ∧
      (CFE_PSP_GetTime ⟨fun _ => 0xFFFFFFFF, []⟩).microsecs = 1048575 ∧
      ¬ (CFE_PSP_GetTime ⟨fun _ => 0xFFFFFFFF, []⟩).microsecs <
          CFE_PSP_TIMER_TICKS_PER_SECOND := by
  decide

/-- C3 (amended): for every 32-bit content of the sub-seconds register, the `microsecs`
field returned by `CFE_PSP_GetTime` is that content divided by `2^12`, lies in
`[0, 2^20)`, and lies below the declared resolution `1000000` exactly when the register
content is below `1000000 * 2^12`; the seconds field is the seconds register unchanged. -/
theorem C3_subseconds_shifted (hw : Hardware)
    (h32 : hw.read FPGA_TIME_SUBSECONDS_REGISTER < 2 ^ 32) :
    (CFE_PSP_GetTime hw).microsecs = hw.read FPGA_TIME_SUBSECONDS_REGISTER / 2 ^ 12 ∧
      (CFE_PSP_GetTime hw).microsecs < 2 ^ 20 ∧
      ((CFE_PSP_GetTime hw).microsecs < CFE_PSP_TIMER_TICKS_PER_SECOND ↔
        hw.read FPGA_TIME_SUBSECONDS_REGISTER < CFE_PSP_TIMER_TICKS_PER_SECOND * 2 ^ 12) ∧
      (CFE_PSP_GetTime hw).seconds = hw.read FPGA_TIME_SECONDS_REGISTER := by
  have hm : (CFE_PSP_GetTime hw).microsecs =
      hw.read FPGA_TIME_SUBSECONDS_REGISTER / 2 ^ 12 := by
    simp only [CFE_PSP_GetTime, Nat.shiftRight_eq_div_pow]
  refine ⟨hm, ?_, ?_, rfl⟩
  · rw [hm]
    omega
  · rw [hm]
    simp only [CFE_PSP_TIMER_TICKS_PER_SECOND]
    omega

/-- C3 witness: the amended statement at a register file whose sub-seconds register
holds `0xFFFFFFFF`. -/
theorem C3_subseconds_shifted_witness :
    (CFE_PSP_GetTime ⟨fun _ => 0xFFFFFFFF, []⟩).microsecs = 0xFFFFFFFF / 2 ^ 12 ∧
      (CFE_PSP_GetTime ⟨fun _ => 0xFFFFFFFF, []⟩).microsecs < 2 ^ 20 :=
  have h := C3_subseconds_shifted ⟨fun _ => 0xFFFFFFFF, []⟩ (by decide)
  ⟨h.1, h.2.1⟩

/-! ### Helper lemmas for runs -/

theorem Boot.bind_eq {α β : Type} (m : Boot α) (f : α → Boot β) :
    m >>= f = Boot.bind m f := rfl

theorem Boot.pure_eq {α : Type} (a : α) : (pure a : Boot α) = ⟨[], Outcome.returned a⟩ := rfl

theorem Boot.printsAndReturns_pure {α : Type} (a : α) :
    (pure a : Boot α).printsAndReturns :=
  ⟨⟨a, rfl⟩, fun _ h => by cases h⟩

theorem Boot.printsAndReturns_call (e : Event) (h : e.isPrint = true) :
    (call e).printsAndReturns :=
  ⟨⟨(), rfl⟩, fun e1 h1 => by
    have : e1 = e := by simpa [call] using h1
    rw [this]; exact h⟩

theorem Boot.printsAndReturns_bind {α β : Type} {m : Boot α} {f : α → Boot β}
    (hm : m.printsAndReturns) (hf : ∀ a, (f a).printsAndReturns) :
    (m >>= f).printsAndReturns := by
  obtain ⟨⟨a, ha⟩, hp⟩ := hm
  obtain ⟨⟨b, hb⟩, hq⟩ := hf a
  refine ⟨⟨b, ?_⟩, ?_⟩
  · simp only [Boot.bind_eq, Boot.bind, ha, hb]
  · intro e he
    simp only [Boot.bind_eq, Boot.bind, ha, List.mem_append] at he
    rcases he with he | he
    · exact hp e he
    · exact hq e he

theorem Boot.printsAndReturns_ite {α : Type} {c : Prop} [Decidable c] {m1 m2 : Boot α}
    (h1 : m1.printsAndReturns) (h2 : m2.printsAndReturns) :
    (if c then m1 else m2).printsAndReturns := by
  split
  · exact h1
  · exact h2

/-- The function `CFE_PSP_ProcessArgumentDefaults` always returns and only prints. -/
theorem NosLinux.processArgumentDefaults_printsAndReturns (cfg : PlatformConfig)
    (CommandData : NosLinux.CFE_PSP_CommandData_t) :
    (NosLinux.CFE_PSP_ProcessArgumentDefaults cfg CommandData).printsAndReturns := by
  unfold NosLinux.CFE_PSP_ProcessArgumentDefaults
  repeat first
    | exact Boot.printsAndReturns_pure _
    | exact Boot.printsAndReturns_call _ rfl
    | refine Boot.printsAndReturns_ite ?_ ?_
    | refine Boot.printsAndReturns_bind ?_ ?_
    | intro _

theorem Boot.pure_bind {α β : Type} (a : α) (f : α → Boot β) :
    (pure a : Boot α) >>= f = f a := rfl

theorem Boot.panic_bind_trace {β : Type} (st : Int) (f : Unit → Boot β) :
    (CFE_PSP_Panic st >>= f).trace = [Event.CFE_PSP_Panic st] := rfl

theorem Boot.panic_bind_outcome {β : Type} (st : Int) (f : Unit → Boot β) :
    (CFE_PSP_Panic st >>= f).outcome = Outcome.panicked st := rfl

theorem Boot.panic_trace (st : Int) :
    (CFE_PSP_Panic st).trace = [Event.CFE_PSP_Panic st] := rfl

theorem Boot.panic_outcome (st : Int) :
    (CFE_PSP_Panic st).outcome = Outcome.panicked st := rfl

theorem Boot.ite_bind {α β : Type} (c : Prop) [Decidable c] (m1 m2 : Boot α)
    (f : α → Boot β) :
    (if c then m1 else m2) >>= f = if c then m1 >>= f else m2 >>= f := by
  split <;> rfl

theorem Boot.bind_assoc {α β γ : Type} (m : Boot α) (f : α → Boot β) (g : β → Boot γ) :
    (m >>= f) >>= g = m >>= fun a => f a >>= g := by
  obtain ⟨tr, o⟩ := m
  cases o with
  | returned a =>
    simp only [Boot.bind_eq, Boot.bind]
    cases hfa : (f a).outcome <;> simp [List.append_assoc]
  | panicked st => rfl
  | blocked => rfl
  | exited st => rfl

theorem Boot.call_bind_trace {β : Type} (e : Event) (f : Unit → Boot β) :
    (call e >>= f).trace = e :: (f ()).trace := rfl

theorem Boot.call_bind_outcome {β : Type} (e : Event) (f : Unit → Boot β) :
    (call e >>= f).outcome = (f ()).outcome := rfl

theorem Boot.callRet_bind_trace {α β : Type} (e : Event) (a : α) (f : α → Boot β) :
    (callRet e a >>= f).trace = e :: (f a).trace := rfl

theorem Boot.callRet_bind_outcome {α β : Type} (e : Event) (a : α) (f : α → Boot β) :
    (callRet e a >>= f).outcome = (f a).outcome := rfl

theorem Boot.bind_trace_of_returned {α β : Type} {m : Boot α} {a : α} (f : α → Boot β)
    (h : m.outcome = Outcome.returned a) :
    (m >>= f).trace = m.trace ++ (f a).trace := by
  simp only [Boot.bind_eq, Boot.bind, h]

theorem Boot.bind_outcome_of_returned {α β : Type} {m : Boot α} {a : α} (f : α → Boot β)
    (h : m.outcome = Outcome.returned a) :
    (m >>= f).outcome = (f a).outcome := by
  simp only [Boot.bind_eq, Boot.bind, h]

theorem Boot.idle_bind_trace {β : Type} (env : Env) (f : Unit → Boot β) :
    (OS_IdleLoop env >>= f).trace =
      Event.OS_IdleLoop :: (if env.shutdownRequested then (f ()).trace else []) := by
  cases h : env.shutdownRequested <;> simp [Boot.bind_eq, Boot.bind, OS_IdleLoop, h]

theorem Boot.idle_bind_outcome {β : Type} (env : Env) (f : Unit → Boot β) :
    (OS_IdleLoop env >>= f).outcome =
      (if env.shutdownRequested then (f ()).outcome else Outcome.blocked) := by
  cases h : env.shutdownRequested <;> simp [Boot.bind_eq, Boot.bind, OS_IdleLoop, h]

theorem Boot.call_trace (e : Event) : (call e).trace = [e] := rfl

theorem Boot.call_outcome (e : Event) : (call e).outcome = Outcome.returned () := rfl

theorem Boot.pure_trace {α : Type} (a : α) : (pure a : Boot α).trace = [] := rfl

theorem Boot.pure_outcome {α : Type} (a : α) :
    (pure a : Boot α).outcome = Outcome.returned a := rfl

theorem Boot.filter_prints_nil {l : List Event} (h : ∀ e ∈ l, e.isPrint = true) :
    l.filter (fun e => !e.isPrint) = [] := by
  rw [List.filter_eq_nil_iff]
  intro e he
  simp [h e he]

/-- The run of mares-rtems `CFE_PSP_Main` when `OS_API_Init` fails. -/
theorem MaresRtems.main_of_init_failure (cfg : PlatformConfig) (env : Env)
    (h : env.OS_API_Init ≠ cfg.OS_SUCCESS) :
    (MaresRtems.CFE_PSP_Main cfg env).trace =
        [Event.OS_API_Init, Event.printf "CFE_PSP: OS_API_Init() failure\n" [],
          Event.CFE_PSP_Panic env.OS_API_Init] ∧
      (MaresRtems.CFE_PSP_Main cfg env).outcome = Outcome.panicked env.OS_API_Init := by
  constructor
  · simp only [MaresRtems.CFE_PSP_Main, Boot.callRet_bind_trace, Boot.ite_bind, if_pos h,
      Boot.bind_assoc, Boot.call_bind_trace, Boot.panic_bind_trace]
  · simp only [MaresRtems.CFE_PSP_Main, Boot.callRet_bind_outcome, Boot.ite_bind, if_pos h,
      Boot.bind_assoc, Boot.call_bind_outcome, Boot.panic_bind_outcome]

/-! ### Claim C4 -/

/-- C4: in both sequencers, if `OS_API_Init` returns a status other than `OS_SUCCESS`,
the run ends halted in `CFE_PSP_Panic` called with that status, and no later startup
step is executed: the mares-rtems run is exactly init, diagnostic, panic; the nos-linux
run has, apart from prints, exactly the steps signal installation, init, panic, and the
panic is its last call. -/
theorem C4_os_init_failure_is_fatal (cfg : PlatformConfig) (env : Env)
    (CommandData : NosLinux.CFE_PSP_CommandData_t)
    (h : env.OS_API_Init ≠ cfg.OS_SUCCESS) :
    (MaresRtems.CFE_PSP_Main cfg env).trace =
        [Event.OS_API_Init, Event.printf "CFE_PSP: OS_API_Init() failure\n" [],
          Event.CFE_PSP_Panic env.OS_API_Init] ∧
      (MaresRtems.CFE_PSP_Main cfg env).outcome = Outcome.panicked env.OS_API_Init ∧
      (NosLinux.main cfg env CommandData).outcome = Outcome.panicked env.OS_API_Init ∧
      (NosLinux.main cfg env CommandData).steps =
        [Event.signal_SIGINT Callback.CFE_PSP_SigintHandler, Event.OS_API_Init,
          Event.CFE_PSP_Panic env.OS_API_Init] ∧
      (NosLinux.main cfg env CommandData).trace.getLast? =
        some (Event.CFE_PSP_Panic env.OS_API_Init) := by
  obtain ⟨⟨cd, hcd⟩, hpr⟩ := NosLinux.processArgumentDefaults_printsAndReturns cfg CommandData
  have hf := Boot.filter_prints_nil hpr
  refine ⟨(MaresRtems.main_of_init_failure cfg env h).1,
    (MaresRtems.main_of_init_failure cfg env h).2, ?_, ?_, ?_⟩
  · simp only [NosLinux.main, Boot.bind_outcome_of_returned _ hcd]
    split <;>
      simp only [Boot.callRet_bind_outcome, Boot.ite_bind, if_pos h, Boot.bind_assoc,
        Boot.call_bind_outcome, Boot.panic_bind_outcome, Boot.pure_bind]
  · simp only [Boot.steps, NosLinux.main, Boot.bind_trace_of_returned _ hcd, List.filter_append, hf]
    split <;>
      simp only [Boot.callRet_bind_trace, Boot.ite_bind, if_pos h, Boot.bind_assoc,
        Boot.call_bind_trace, Boot.panic_bind_trace, Boot.pure_bind] <;> rfl
  · simp only [NosLinux.main, Boot.bind_trace_of_returned _ hcd]
    split <;>
      simp only [Boot.callRet_bind_trace, Boot.ite_bind, if_pos h, Boot.bind_assoc,
        Boot.call_bind_trace, Boot.panic_bind_trace, Boot.pure_bind] <;> simp

/-- C4 witness: `OS_API_Init` returning `-1` under the reference configuration. -/
theorem C4_os_init_failure_is_fatal_witness :
    (MaresRtems.CFE_PSP_Main PlatformConfig.reference
        { Env.nominal with OS_API_Init := -1 }).outcome = Outcome.panicked (-1) ∧
      (NosLinux.main PlatformConfig.reference { Env.nominal with OS_API_Init := -1 }
        NosLinux.commandData_PR_3).steps =
        [Event.signal_SIGINT Callback.CFE_PSP_SigintHandler, Event.OS_API_Init,
          Event.CFE_PSP_Panic (-1)] :=
  have h := C4_os_init_failure_is_fatal PlatformConfig.reference
    { Env.nominal with OS_API_Init := -1 } NosLinux.commandData_PR_3 (by decide)
  ⟨h.2.1, h.2.2.2.1⟩

/-! ### Claim C5 -/

/-- C5: in mares-rtems `CFE_PSP_Main`, with `OS_API_Init`, `OS_TimeBaseCreate` and
`OS_TimeBaseSet` succeeding, the run returns and its calls are: the three calls up to
`OS_FileSysAddFixedMap`, then one `OS_printf` exactly when the mapping failed, then the
same six calls in both cases (module init, timebase create and set, reserved-memory
initialisation, the entry point with the same arguments, 1Hz enable); no panic. -/
theorem C5_path_alias_failure_nonblocking (cfg : PlatformConfig) (env : Env)
    (h1 : env.OS_API_Init = cfg.OS_SUCCESS)
    (h2 : env.OS_TimeBaseCreate = cfg.OS_SUCCESS)
    (h3 : env.OS_TimeBaseSet = cfg.OS_SUCCESS) :
    (MaresRtems.CFE_PSP_Main cfg env).trace =
        [Event.OS_API_Init, Event.CFE_PSP_SetupReservedMemoryMap,
          Event.OS_FileSysAddFixedMap "/eeprom" "/cf"] ++
        (if env.OS_FileSysAddFixedMap = cfg.OS_SUCCESS then []
          else [Event.OS_printf "CFE_PSP: OS_FileSysAddFixedMap() failure: %d\n"
            [PrintArg.int env.OS_FileSysAddFixedMap]]) ++
        [Event.CFE_PSP_ModuleInit, Event.OS_TimeBaseCreate "cFS-Master",
          Event.OS_TimeBaseSet env.timebase_id 250000 250000,
          Event.CFE_PSP_InitProcessorReservedMemory cfg.CFE_PSP_RST_TYPE_POWERON,
          Event.CFE_PSP_MAIN_FUNCTION cfg.CFE_PSP_RST_TYPE_POWERON
            cfg.CFE_PSP_RST_SUBTYPE_POWER_CYCLE 1 cfg.CFE_PSP_NONVOL_STARTUP_FILE,
          Event.CFE_PSP_Setup1HzInterrupt] ∧
      (MaresRtems.CFE_PSP_Main cfg env).outcome = Outcome.returned () := by
  have n1 : ¬ env.OS_API_Init ≠ cfg.OS_SUCCESS := fun hn => hn h1
  have n3 : ¬ env.OS_TimeBaseSet ≠ cfg.OS_SUCCESS := fun hn => hn h3
  constructor
  · simp only [MaresRtems.CFE_PSP_Main, MaresRtems.CFE_PSP_SetupSystemTimer,
      Boot.callRet_bind_trace, Boot.ite_bind, if_neg n1, Boot.bind_assoc, Boot.pure_bind,
      Boot.call_bind_trace, if_pos h2, if_neg n3, Boot.call_trace]
    by_cases hf : env.OS_FileSysAddFixedMap = cfg.OS_SUCCESS
    · have nf : ¬ env.OS_FileSysAddFixedMap ≠ cfg.OS_SUCCESS := fun hn => hn hf
      simp only [if_neg nf, if_pos hf, Boot.pure_bind, Boot.callRet_bind_trace,
        Boot.call_bind_trace, Boot.call_trace, if_pos h2, if_neg n3, Boot.ite_bind]
      rfl
    · have nf : env.OS_FileSysAddFixedMap ≠ cfg.OS_SUCCESS := hf
      simp only [if_pos nf, if_neg hf, Boot.pure_bind, Boot.callRet_bind_trace,
        Boot.call_bind_trace, Boot.call_trace, if_pos h2, if_neg n3, Boot.ite_bind]
      rfl
  · simp only [MaresRtems.CFE_PSP_Main, MaresRtems.CFE_PSP_SetupSystemTimer,
      Boot.callRet_bind_outcome, Boot.ite_bind, if_neg n1, Boot.bind_assoc, Boot.pure_bind,
      Boot.call_bind_outcome, if_pos h2, if_neg n3, Boot.call_outcome]
    split <;>
      simp only [Boot.pure_bind, Boot.callRet_bind_outcome, Boot.call_bind_outcome,
        Boot.call_outcome, if_pos h2, if_neg n3, Boot.ite_bind]

/-- C5 witness: the mapping call returning `-1` while every other call succeeds. -/
theorem C5_path_alias_failure_nonblocking_witness :
    (MaresRtems.CFE_PSP_Main PlatformConfig.reference
        { Env.nominal with OS_FileSysAddFixedMap := -1 }).outcome = Outcome.returned () :=
  (C5_path_alias_failure_nonblocking PlatformConfig.reference
    { Env.nominal with OS_FileSysAddFixedMap := -1 } rfl rfl rfl).2

/-! ### Helper lemmas for the register file -/

theorem Hardware.read_write_same (hw : Hardware) (addr val : Nat) :
    (hw.write addr val).read addr = val := by
  unfold Hardware.read Hardware.write
  exact if_pos rfl

theorem Hardware.regs_write_write (hw : Hardware) (addr v w : Nat) :
    ((hw.write addr v).write addr w).regs = (hw.write addr w).regs := by
  funext a
  unfold Hardware.write
  by_cases h : a = addr
  · simp only [if_pos h]
  · simp only [if_neg h]

/-! ### Claims C6, C7, C8 -/

/-- C6: for every prior watchdog state and every value `t`, `CFE_PSP_WatchdogSet(t)`
followed by `CFE_PSP_WatchdogService()` leaves the heartbeat (CFG) register holding
`t`, and the write just performed is the write of `t` to that register, whatever value
was commanded before. -/
theorem C6_set_then_service_writes_new_value (s : WatchdogState) (t : Nat) :
    (CFE_PSP_WatchdogService (CFE_PSP_WatchdogSet t s)).hw.read
        FPGA_HEARTBEAT_PSP_MONITOR_CFG_REGISTER = t ∧
      (CFE_PSP_WatchdogService (CFE_PSP_WatchdogSet t s)).hw.writes =
        s.hw.writes ++ [(FPGA_HEARTBEAT_PSP_MONITOR_CFG_REGISTER, t)] :=
  ⟨Hardware.read_write_same _ _ _, rfl⟩

/-- C7: for every watchdog state, Enable; Disable; Enable ends with the same register
file and watchdog values as a single Enable, with the MISC register holding the enable
pattern; Enable twice equals Enable once; Disable twice equals Disable once; and the
value Disable leaves in the MISC register differs from the value Enable leaves. -/
theorem C7_enable_disable_idempotent (s : WatchdogState) :
    (CFE_PSP_WatchdogEnable (CFE_PSP_WatchdogDisable (CFE_PSP_WatchdogEnable s))).sameRegsAndValues
        (CFE_PSP_WatchdogEnable s) ∧
      (CFE_PSP_WatchdogEnable (CFE_PSP_WatchdogDisable (CFE_PSP_WatchdogEnable s))).hw.read
        FPGA_HEARTBEAT_PSP_MONITOR_MISC_REGISTER = FPGA_HEARTBEAT_PSP_MISC_ENABLE ∧
      (CFE_PSP_WatchdogEnable (CFE_PSP_WatchdogEnable s)).sameRegsAndValues
        (CFE_PSP_WatchdogEnable s) ∧
      (CFE_PSP_WatchdogDisable (CFE_PSP_WatchdogDisable s)).sameRegsAndValues
        (CFE_PSP_WatchdogDisable s) ∧
      (CFE_PSP_WatchdogDisable s).hw.read FPGA_HEARTBEAT_PSP_MONITOR_MISC_REGISTER ≠
        (CFE_PSP_WatchdogEnable s).hw.read FPGA_HEARTBEAT_PSP_MONITOR_MISC_REGISTER := by
  refine ⟨⟨?_, rfl, rfl⟩, ?_, ⟨?_, rfl, rfl⟩, ⟨?_, rfl, rfl⟩, ?_⟩
  · show (((s.hw.write _ _).write _ _).write _ _).regs = (s.hw.write _ _).regs
    rw [Hardware.regs_write_write, Hardware.regs_write_write]
  · exact Hardware.read_write_same _ _ _
  · exact Hardware.regs_write_write _ _ _ _
  · exact Hardware.regs_write_write _ _ _ _
  · show (s.hw.write _ _).read _ ≠ (s.hw.write _ _).read _
    rw [Hardware.read_write_same, Hardware.read_write_same]
    decide

/-- C8: `CFE_PSP_GetTimerLow32Rollover` returns the sentinel `0`,
`CFE_PSP_GetTimerTicksPerSecond` returns `1000000`, and the two results differ. -/
theorem C8_rollover_sentinel :
    CFE_PSP_GetTimerLow32Rollover = 0 ∧ CFE_PSP_GetTimerTicksPerSecond = 1000000 ∧
      CFE_PSP_GetTimerLow32Rollover ≠ CFE_PSP_GetTimerTicksPerSecond := by
  refine ⟨rfl, rfl, ?_⟩
  simp [CFE_PSP_GetTimerLow32Rollover, CFE_PSP_GetTimerTicksPerSecond,
    CFE_PSP_TIMER_LOW32_ROLLOVER, CFE_PSP_TIMER_TICKS_PER_SECOND]

/-! ### Claim C9 -/

/-- The three possible runs of `CFE_PSP_SetupSystemTimer`. -/
theorem MaresRtems.setupSystemTimer_cases (cfg : PlatformConfig) (env : Env) :
    (env.OS_TimeBaseCreate = cfg.OS_SUCCESS ∧ env.OS_TimeBaseSet = cfg.OS_SUCCESS ∧
      (MaresRtems.CFE_PSP_SetupSystemTimer cfg env).trace =
        [Event.OS_TimeBaseCreate "cFS-Master",
          Event.OS_TimeBaseSet env.timebase_id 250000 250000] ∧
      (MaresRtems.CFE_PSP_SetupSystemTimer cfg env).outcome = Outcome.returned ()) ∨
    (env.OS_TimeBaseCreate = cfg.OS_SUCCESS ∧ env.OS_TimeBaseSet ≠ cfg.OS_SUCCESS ∧
      (MaresRtems.CFE_PSP_SetupSystemTimer cfg env).trace =
        [Event.OS_TimeBaseCreate "cFS-Master",
          Event.OS_TimeBaseSet env.timebase_id 250000 250000,
          Event.OS_printf "CFE_PSP: Error configuring cFS timing: %d\n"
            [PrintArg.int env.OS_TimeBaseSet],
          Event.CFE_PSP_Panic env.OS_TimeBaseSet] ∧
      (MaresRtems.CFE_PSP_SetupSystemTimer cfg env).outcome =
        Outcome.panicked env.OS_TimeBaseSet) ∨
    (env.OS_TimeBaseCreate ≠ cfg.OS_SUCCESS ∧
      (MaresRtems.CFE_PSP_SetupSystemTimer cfg env).trace =
        [Event.OS_TimeBaseCreate "cFS-Master",
          Event.OS_printf "CFE_PSP: Error configuring cFS timing: %d\n"
            [PrintArg.int env.OS_TimeBaseCreate],
          Event.CFE_PSP_Panic env.OS_TimeBaseCreate] ∧
      (MaresRtems.CFE_PSP_SetupSystemTimer cfg env).outcome =
        Outcome.panicked env.OS_TimeBaseCreate) := by
  by_cases hc : env.OS_TimeBaseCreate = cfg.OS_SUCCESS
  · by_cases hs : env.OS_TimeBaseSet = cfg.OS_SUCCESS
    · have ns : ¬ env.OS_TimeBaseSet ≠ cfg.OS_SUCCESS := fun hn => hn hs
      refine Or.inl ⟨hc, hs, ?_, ?_⟩
      · simp only [MaresRtems.CFE_PSP_SetupSystemTimer, Boot.callRet_bind_trace, if_pos hc,
          if_neg ns, Boot.pure_trace]
      · simp only [MaresRtems.CFE_PSP_SetupSystemTimer, Boot.callRet_bind_outcome, if_pos hc,
          if_neg ns, Boot.pure_outcome]
    · have ns : env.OS_TimeBaseSet ≠ cfg.OS_SUCCESS := hs
      refine Or.inr (Or.inl ⟨hc, hs, ?_, ?_⟩)
      · simp only [MaresRtems.CFE_PSP_SetupSystemTimer, Boot.callRet_bind_trace, if_pos hc,
          if_pos ns, Boot.call_bind_trace, Boot.panic_trace]
      · simp only [MaresRtems.CFE_PSP_SetupSystemTimer, Boot.callRet_bind_outcome, if_pos hc,
          if_pos ns, Boot.call_bind_outcome, Boot.panic_outcome]
  · have nc : env.OS_TimeBaseCreate ≠ cfg.OS_SUCCESS := hc
    refine Or.inr (Or.inr ⟨hc, ?_, ?_⟩)
    · simp only [MaresRtems.CFE_PSP_SetupSystemTimer, Boot.callRet_bind_trace, if_neg hc,
        Boot.pure_bind, if_pos nc, Boot.call_bind_trace, Boot.panic_trace]
    · simp only [MaresRtems.CFE_PSP_SetupSystemTimer, Boot.callRet_bind_outcome, if_neg hc,
        Boot.pure_bind, if_pos nc, Boot.call_bind_outcome, Boot.panic_outcome]

theorem Boot.bind_trace_of_panicked {α β : Type} {m : Boot α} {st : Int} (f : α → Boot β)
    (h : m.outcome = Outcome.panicked st) :
    (m >>= f).trace = m.trace := by
  simp only [Boot.bind_eq, Boot.bind, h]

theorem Boot.bind_outcome_of_panicked {α β : Type} {m : Boot α} {st : Int} (f : α → Boot β)
    (h : m.outcome = Outcome.panicked st) :
    (m >>= f).outcome = Outcome.panicked st := by
  simp only [Boot.bind_eq, Boot.bind, h]

/-- When the timebase cannot be created or armed, `CFE_PSP_SetupSystemTimer` panics
without calling the entry point. -/
theorem MaresRtems.setupSystemTimer_panics (cfg : PlatformConfig) (env : Env)
    (h : env.OS_TimeBaseCreate ≠ cfg.OS_SUCCESS ∨ env.OS_TimeBaseSet ≠ cfg.OS_SUCCESS) :
    ∃ st, (MaresRtems.CFE_PSP_SetupSystemTimer cfg env).outcome = Outcome.panicked st ∧
      (MaresRtems.CFE_PSP_SetupSystemTimer cfg env).trace.filter Event.isEntryPoint = [] := by
  rcases MaresRtems.setupSystemTimer_cases cfg env with ⟨hc, hs, _, _⟩ | ⟨_, _, ht, ho⟩ | ⟨_, ht, ho⟩
  · rcases h with h | h
    · exact absurd hc h
    · exact absurd hs h
  · exact ⟨_, ho, by rw [ht]; rfl⟩
  · exact ⟨_, ho, by rw [ht]; rfl⟩

/-- C9: `CFE_PSP_SetupSystemTimer` calls `OS_TimeBaseSet` exactly when
`OS_TimeBaseCreate` returned `OS_SUCCESS`, and then with the created identifier, start
250000 and interval 250000; it calls `CFE_PSP_Panic`, and ends halted by it, exactly
when creation failed (with the creation status) or creation succeeded and arming failed
(with the arming status); and when the timebase cannot be created or armed,
`CFE_PSP_Main` ends halted by a panic and never calls the flight-executive entry
point. -/
theorem C9_timebase_failure_is_fatal (cfg : PlatformConfig) (env : Env) :
    (∀ id start interval,
      Event.OS_TimeBaseSet id start interval ∈
          (MaresRtems.CFE_PSP_SetupSystemTimer cfg env).trace ↔
        env.OS_TimeBaseCreate = cfg.OS_SUCCESS ∧ id = env.timebase_id ∧
          start = 250000 ∧ interval = 250000) ∧
    (∀ status,
      Event.CFE_PSP_Panic status ∈ (MaresRtems.CFE_PSP_SetupSystemTimer cfg env).trace ↔
        (env.OS_TimeBaseCreate ≠ cfg.OS_SUCCESS ∧ status = env.OS_TimeBaseCreate) ∨
        (env.OS_TimeBaseCreate = cfg.OS_SUCCESS ∧ env.OS_TimeBaseSet ≠ cfg.OS_SUCCESS ∧
          status = env.OS_TimeBaseSet)) ∧
    (∀ status,
      (MaresRtems.CFE_PSP_SetupSystemTimer cfg env).outcome = Outcome.panicked status ↔
        (env.OS_TimeBaseCreate ≠ cfg.OS_SUCCESS ∧ status = env.OS_TimeBaseCreate) ∨
        (env.OS_TimeBaseCreate = cfg.OS_SUCCESS ∧ env.OS_TimeBaseSet ≠ cfg.OS_SUCCESS ∧
          status = env.OS_TimeBaseSet)) ∧
    ((env.OS_TimeBaseCreate ≠ cfg.OS_SUCCESS ∨ env.OS_TimeBaseSet ≠ cfg.OS_SUCCESS) →
      (MaresRtems.CFE_PSP_Main cfg env).trace.filter Event.isEntryPoint = [] ∧
      ∃ status, (MaresRtems.CFE_PSP_Main cfg env).outcome = Outcome.panicked status) := by
  refine ⟨?_, ?_, ?_, ?_⟩
  · intro id start interval
    rcases MaresRtems.setupSystemTimer_cases cfg env with
      ⟨hc, _, ht, _⟩ | ⟨hc, _, ht, _⟩ | ⟨hc, ht, _⟩
    · rw [ht]
      simp [hc, eq_comm]
    · rw [ht]
      simp [hc, eq_comm]
    · rw [ht]
      simp [hc]
  · intro status
    rcases MaresRtems.setupSystemTimer_cases cfg env with
      ⟨hc, hs, ht, _⟩ | ⟨hc, hs, ht, _⟩ | ⟨hc, ht, _⟩
    · rw [ht]
      simp [hc, hs]
    · rw [ht]
      simp [hc, hs]
    · rw [ht]
      simp [hc]
  · intro status
    rcases MaresRtems.setupSystemTimer_cases cfg env with
      ⟨hc, hs, _, ho⟩ | ⟨hc, hs, _, ho⟩ | ⟨hc, _, ho⟩
    · rw [ho]
      simp [hc, hs]
    · rw [ho]
      simp [hc, hs, eq_comm]
    · rw [ho]
      simp [hc, eq_comm]
  · intro h
    obtain ⟨st, ho, hfil⟩ := MaresRtems.setupSystemTimer_panics cfg env h
    by_cases h1 : env.OS_API_Init = cfg.OS_SUCCESS
    · have n1 : ¬ env.OS_API_Init ≠ cfg.OS_SUCCESS := fun hn => hn h1
      constructor
      · simp only [MaresRtems.CFE_PSP_Main, Boot.callRet_bind_trace, Boot.ite_bind,
          if_neg n1, Boot.bind_assoc, Boot.pure_bind, Boot.call_bind_trace]
        split <;>
          simp only [Boot.pure_bind, Boot.call_bind_trace, Boot.bind_trace_of_panicked _ ho,
            List.filter_cons, Event.isEntryPoint, hfil] <;> rfl
      · refine ⟨st, ?_⟩
        simp only [MaresRtems.CFE_PSP_Main, Boot.callRet_bind_outcome, Boot.ite_bind,
          if_neg n1, Boot.bind_assoc, Boot.pure_bind, Boot.call_bind_outcome]
        split <;>
          simp only [Boot.pure_bind, Boot.call_bind_outcome,
            Boot.bind_outcome_of_panicked _ ho]
    · have hI := MaresRtems.main_of_init_failure cfg env h1
      exact ⟨by rw [hI.1]; rfl, _, hI.2⟩

/-- C9 witness: arming returns `-1` after a successful creation. -/
theorem C9_timebase_failure_is_fatal_witness :
    (MaresRtems.CFE_PSP_Main PlatformConfig.reference
        { Env.nominal with OS_TimeBaseSet := -1 }).trace.filter Event.isEntryPoint = [] ∧
      ∃ status, (MaresRtems.CFE_PSP_Main PlatformConfig.reference
        { Env.nominal with OS_TimeBaseSet := -1 }).outcome = Outcome.panicked status :=
  (C9_timebase_failure_is_fatal PlatformConfig.reference
    { Env.nominal with OS_TimeBaseSet := -1 }).2.2.2 (Or.inr (by decide))

/-! ### Claim C10 -/

theorem Event.not_entryPoint_of_isPrint {e : Event} (h : e.isPrint = true) :
    e.isEntryPoint = false := by
  cases e <;> first | rfl | cases h

theorem Event.not_panic_of_isPrint {e : Event} (h : e.isPrint = true) :
    e.isPanic = false := by
  cases e <;> first | rfl | cases h

theorem Boot.filter_entryPoint_nil {l : List Event} (h : ∀ e ∈ l, e.isPrint = true) :
    l.filter Event.isEntryPoint = [] := by
  rw [List.filter_eq_nil_iff]
  intro e he
  simp [Event.not_entryPoint_of_isPrint (h e he)]

theorem Boot.filter_panic_nil {l : List Event} (h : ∀ e ∈ l, e.isPrint = true) :
    l.filter Event.isPanic = [] := by
  rw [List.filter_eq_nil_iff]
  intro e he
  simp [Event.not_panic_of_isPrint (h e he)]

/-- C10 (as stated, refuted): under the reference configuration, with `OS_TimeBaseCreate`
succeeding and `OS_TimeBaseSet` returning `-1`, nos-linux `main` returns `0`, makes no
call of `CFE_PSP_Panic`, and calls the flight-executive entry point. -/
theorem C10_arming_failure_reaches_entry_point :
    ({ Env.nominal with OS_TimeBaseSet := -1 } : Env).OS_TimeBaseCreate =
        PlatformConfig.reference.OS_SUCCESS ∧
      ({ Env.nominal with OS_TimeBaseSet := -1 } : Env).OS_TimeBaseSet ≠
        PlatformConfig.reference.OS_SUCCESS ∧
      (NosLinux.main PlatformConfig.reference { Env.nominal with OS_TimeBaseSet := -1 }
        NosLinux.commandData_PR_3).outcome = Outcome.returned 0 ∧
      (NosLinux.main PlatformConfig.reference { Env.nominal with OS_TimeBaseSet := -1 }
        NosLinux.commandData_PR_3).trace.filter Event.isPanic = [] ∧
      (NosLinux.main PlatformConfig.reference { Env.nominal with OS_TimeBaseSet := -1 }
        NosLinux.commandData_PR_3).trace.filter Event.isEntryPoint =
        [Event.CFE_PSP_MAIN_FUNCTION 1 3 1 "/cf/cfe_es_startup.scr"] := by
  refine ⟨rfl, by decide, rfl, rfl, rfl⟩

/-- C10 (amended): in nos-linux `main`, if `OS_API_Init` and `OS_TimeBaseCreate` succeed,
then whatever status `OS_TimeBaseSet` returns, the timebase is armed with start 50000
and interval 50000, the run makes the same calls and ends the same way as the run in
which arming succeeds, `CFE_PSP_Panic` is never called, and the flight-executive entry
point is called exactly once. -/
theorem C10_arming_status_ignored (cfg : PlatformConfig) (env : Env)
    (CommandData : NosLinux.CFE_PSP_CommandData_t)
    (h1 : env.OS_API_Init = cfg.OS_SUCCESS)
    (h2 : env.OS_TimeBaseCreate = cfg.OS_SUCCESS) :
    (NosLinux.main cfg env CommandData).trace =
        (NosLinux.main cfg { env with OS_TimeBaseSet := cfg.OS_SUCCESS } CommandData).trace ∧
      (NosLinux.main cfg env CommandData).outcome =
        (NosLinux.main cfg { env with OS_TimeBaseSet := cfg.OS_SUCCESS } CommandData).outcome ∧
      Event.OS_TimeBaseSet env.timebase_id 50000 50000 ∈
        (NosLinux.main cfg env CommandData).trace ∧
      (NosLinux.main cfg env CommandData).trace.filter Event.isPanic = [] ∧
      (∀ status, (NosLinux.main cfg env CommandData).outcome ≠ Outcome.panicked status) ∧
      ((NosLinux.main cfg env CommandData).trace.filter Event.isEntryPoint).length = 1 := by
  obtain ⟨⟨cd, hcd⟩, hpr⟩ := NosLinux.processArgumentDefaults_printsAndReturns cfg CommandData
  have hfp := Boot.filter_panic_nil hpr
  have hfe := Boot.filter_entryPoint_nil hpr
  have n1 : ¬ env.OS_API_Init ≠ cfg.OS_SUCCESS := fun hn => hn h1
  refine ⟨?_, ?_, ?_, ?_, ?_, ?_⟩
  · simp only [NosLinux.main, Boot.bind_trace_of_returned _ hcd]
    split <;>
      simp only [Boot.callRet_bind_trace, Boot.ite_bind, if_neg n1, if_pos h2, Boot.bind_assoc,
        Boot.call_bind_trace, Boot.pure_bind] <;> rfl
  · simp only [NosLinux.main, Boot.bind_outcome_of_returned _ hcd]
    split <;>
      simp only [Boot.callRet_bind_outcome, Boot.ite_bind, if_neg n1, if_pos h2,
        Boot.bind_assoc, Boot.call_bind_outcome, Boot.pure_bind] <;> rfl
  · simp only [NosLinux.main, Boot.bind_trace_of_returned _ hcd]
    split <;>
      simp only [Boot.callRet_bind_trace, Boot.ite_bind, if_neg n1, if_pos h2, Boot.bind_assoc,
        Boot.call_bind_trace, Boot.pure_bind] <;> simp
  · simp only [NosLinux.main, Boot.bind_trace_of_returned _ hcd, List.filter_append, hfp]
    split <;>
      simp only [Boot.callRet_bind_trace, Boot.ite_bind, if_neg n1, if_pos h2, Boot.bind_assoc,
        Boot.call_bind_trace, Boot.pure_bind, Boot.idle_bind_trace] <;>
      cases env.shutdownRequested <;> rfl
  · intro status
    simp only [NosLinux.main, Boot.bind_outcome_of_returned _ hcd]
    split <;>
      simp only [Boot.callRet_bind_outcome, Boot.ite_bind, if_neg n1, if_pos h2,
        Boot.bind_assoc, Boot.call_bind_outcome, Boot.pure_bind, Boot.idle_bind_outcome] <;>
      cases env.shutdownRequested <;> simp [Boot.pure_outcome]
  · simp only [NosLinux.main, Boot.bind_trace_of_returned _ hcd, List.filter_append, hfe]
    split <;>
      simp only [Boot.callRet_bind_trace, Boot.ite_bind, if_neg n1, if_pos h2, Boot.bind_assoc,
        Boot.call_bind_trace, Boot.pure_bind, Boot.idle_bind_trace] <;>
      cases env.shutdownRequested <;> rfl

/-- C10 witness: creation succeeds and arming returns `-1` under the reference
configuration. -/
theorem C10_arming_status_ignored_witness :
    (NosLinux.main PlatformConfig.reference { Env.nominal with OS_TimeBaseSet := -1 }
        NosLinux.commandData_PR_3).trace.filter Event.isPanic = [] ∧
      ((NosLinux.main PlatformConfig.reference { Env.nominal with OS_TimeBaseSet := -1 }
        NosLinux.commandData_PR_3).trace.filter Event.isEntryPoint).length = 1 :=
  have h := C10_arming_status_ignored PlatformConfig.reference
    { Env.nominal with OS_TimeBaseSet := -1 } NosLinux.commandData_PR_3 rfl rfl
  ⟨h.2.2.2.1, h.2.2.2.2.2⟩

/-! ### Claim C15 -/

theorem Hardware.regs_write_other (hw : Hardware) (addr val a : Nat) (h : a ≠ addr) :
    (hw.write addr val).regs a = hw.regs a := by
  unfold Hardware.write
  exact if_neg h

theorem FPGA_TIME_LOAD_SECS_ne_SECONDS :
    FPGA_TIME_LOAD_SECS_REGISTER ≠ FPGA_TIME_SECONDS_REGISTER := by
  unfold FPGA_TIME_LOAD_SECS_REGISTER FPGA_TIME_SECONDS_REGISTER
  omega

theorem FPGA_TIME_CMD_ne_SECONDS :
    FPGA_TIME_CMD_REGISTER ≠ FPGA_TIME_SECONDS_REGISTER := by
  unfold FPGA_TIME_CMD_REGISTER FPGA_TIME_SECONDS_REGISTER
  omega

theorem FPGA_TIME_CMD_ne_LOAD_SECS :
    FPGA_TIME_CMD_REGISTER ≠ FPGA_TIME_LOAD_SECS_REGISTER := by
  unfold FPGA_TIME_CMD_REGISTER FPGA_TIME_LOAD_SECS_REGISTER
  omega

/-- The register file after `OS_SetLocalMET` away from the two written addresses. -/
theorem OS_SetLocalMET_regs_other (hw : Hardware) (v a : Nat)
    (h1 : a ≠ FPGA_TIME_LOAD_SECS_REGISTER) (h2 : a ≠ FPGA_TIME_CMD_REGISTER) :
    (OS_SetLocalMET v hw).regs a = hw.regs a := by
  unfold OS_SetLocalMET
  rw [Hardware.regs_write_other _ _ _ _ h2, Hardware.regs_write_other _ _ _ _ h1]

/-- C15 (as stated, refuted): on a register file of zeros, `OS_SetLocalMET(5)` writes `5`
to the load-seconds register `0x8000090c`, which is not the seconds register
`0x80000904` that `OS_GetLocalMET` and `CFE_PSP_GetTime` read; neither of its two writes
goes to the seconds register. -/
theorem C15_write_goes_to_load_register :
    (OS_SetLocalMET 5 ⟨fun _ => 0, []⟩).writes =
        [(FPGA_TIME_LOAD_SECS_REGISTER, 5), (FPGA_TIME_CMD_REGISTER, FPGA_TIME_LOAD_CMD_VALUE)] ∧
      FPGA_TIME_LOAD_SECS_REGISTER ≠ FPGA_TIME_SECONDS_REGISTER ∧
      FPGA_TIME_CMD_REGISTER ≠ FPGA_TIME_SECONDS_REGISTER ∧
      OS_GetLocalMET ⟨fun _ => 0, []⟩ = (⟨fun _ => 0, []⟩ : Hardware).read FPGA_TIME_SECONDS_REGISTER :=
  ⟨rfl, FPGA_TIME_LOAD_SECS_ne_SECONDS, FPGA_TIME_CMD_ne_SECONDS, rfl⟩

/-- C15 (amended): for every register file and every value `v`, `OS_SetLocalMET(v)`
performs exactly two register writes in this order: `v` to the load-seconds register
`FPGA_TIME_LOAD_SECS_REGISTER`, which is a different address from the seconds register
that `OS_GetLocalMET` reads, then the load command value `0xA` to the time command
register; afterwards those two registers hold `v` and `0xA`, every other register,
the seconds register included, is unchanged, and nothing is returned. -/
theorem C15_set_met_two_writes (hw : Hardware) (v : Nat) :
    (OS_SetLocalMET v hw).writes =
        hw.writes ++ [(FPGA_TIME_LOAD_SECS_REGISTER, v), (FPGA_TIME_CMD_REGISTER, 0xA)] ∧
      FPGA_TIME_LOAD_SECS_REGISTER ≠ FPGA_TIME_SECONDS_REGISTER ∧
      (OS_SetLocalMET v hw).read FPGA_TIME_LOAD_SECS_REGISTER = v ∧
      (OS_SetLocalMET v hw).read FPGA_TIME_CMD_REGISTER = 0xA ∧
      (∀ a, a ≠ FPGA_TIME_LOAD_SECS_REGISTER → a ≠ FPGA_TIME_CMD_REGISTER →
        (OS_SetLocalMET v hw).read a = hw.read a) ∧
      OS_GetLocalMET (OS_SetLocalMET v hw) = OS_GetLocalMET hw := by
  refine ⟨?_, FPGA_TIME_LOAD_SECS_ne_SECONDS, ?_, ?_, ?_, ?_⟩
  · simp only [OS_SetLocalMET, Hardware.write, List.append_assoc, List.singleton_append,
      FPGA_TIME_LOAD_CMD_VALUE]
  · show ((hw.write _ v).write _ _).regs FPGA_TIME_LOAD_SECS_REGISTER = v
    rw [Hardware.regs_write_other _ _ _ _ FPGA_TIME_CMD_ne_LOAD_SECS.symm]
    exact Hardware.read_write_same _ _ _
  · exact Hardware.read_write_same _ _ _
  · intro a h1 h2
    exact OS_SetLocalMET_regs_other hw v a h1 h2
  · exact OS_SetLocalMET_regs_other hw v _ FPGA_TIME_LOAD_SECS_ne_SECONDS.symm
      FPGA_TIME_CMD_ne_SECONDS.symm

/-- C15 witness: the sub-seconds register is neither of the two written registers and
keeps its content. -/
theorem C15_set_met_two_writes_witness :
    (OS_SetLocalMET 5 ⟨fun _ => 0, []⟩).read FPGA_TIME_SUBSECONDS_REGISTER =
      (⟨fun _ => 0, []⟩ : Hardware).read FPGA_TIME_SUBSECONDS_REGISTER :=
  (C15_set_met_two_writes ⟨fun _ => 0, []⟩ 5).2.2.2.2.1 FPGA_TIME_SUBSECONDS_REGISTER
    (by unfold FPGA_TIME_SUBSECONDS_REGISTER FPGA_TIME_LOAD_SECS_REGISTER; omega)
    (by unfold FPGA_TIME_SUBSECONDS_REGISTER FPGA_TIME_CMD_REGISTER; omega)

/-! ### Claim C16 -/

/-- C16: for every prior watchdog state and register file, after `CFE_PSP_WatchdogInit`
`CFE_PSP_WatchdogGet` returns `CFE_PSP_WATCHDOG_MAX`, and the hardware is untouched: the
register file is unchanged and no bus write was performed. -/
theorem C16_watchdog_init (cfg : PlatformConfig) (s : WatchdogState) :
    CFE_PSP_WatchdogGet (CFE_PSP_WatchdogInit cfg s) = cfg.CFE_PSP_WATCHDOG_MAX ∧
      (CFE_PSP_WatchdogInit cfg s).hw.regs = s.hw.regs ∧
      (CFE_PSP_WatchdogInit cfg s).hw.writes = s.hw.writes :=
  ⟨rfl, rfl, rfl⟩

/-! ### Claims C17, C18, C19 -/

/-- Call `n + 1` of `CFE_PSP_TimerHandler` fires exactly when `n` is a multiple of 10. -/
theorem firesOnCall_eq (n : Nat) : firesOnCall n = decide (n % 10 = 0) := by
  unfold firesOnCall
  rw [afterTicks_initial_closed, afterTicks_initial_closed]
  show ((n + 1 + 9) / 10 != (n + 9) / 10) = decide (n % 10 = 0)
  by_cases h : n % 10 = 0
  · have : (n + 1 + 9) / 10 ≠ (n + 9) / 10 := by omega
    simp [h, this]
  · have : (n + 1 + 9) / 10 = (n + 9) / 10 := by omega
    simp [h, this]

/-- The counter of the non-resetting handler after `n` calls is `n` reduced modulo 2^32. -/
theorem afterTicksModulo_counter (n : Nat) :
    (afterTicksModulo n TickState.initial).TimerCounter = n % 4294967296 := by
  induction n with
  | zero => rfl
  | succ k ih =>
    have hstep : (afterTicksModulo (k + 1) TickState.initial).TimerCounter =
        ((afterTicksModulo k TickState.initial).TimerCounter + 1) % 4294967296 := by
      simp only [afterTicksModulo, moduloTimerHandler]
      split <;> rfl
    rw [hstep, ih]
    omega

/-- Call `n + 1` of the non-resetting handler fires exactly when `n mod 2^32` is a
multiple of 10. -/
theorem firesOnCallModulo_eq (n : Nat) :
    firesOnCallModulo n = decide ((n % 4294967296) % 10 = 0) := by
  have hc := afterTicksModulo_counter n
  unfold firesOnCallModulo
  simp only [afterTicksModulo, moduloTimerHandler, TICKS_PER_SECOND, hc]
  by_cases h : (n % 4294967296) % 10 = 0
  · simp [h]
  · simp [h]

/-- C17: starting from `TimerCounter = 0`, in every window of `R = 10` consecutive calls
of `CFE_PSP_TimerHandler`, whatever the position `k` at which the window starts, the
1Hz callback is invoked exactly once: the invocation count grows by exactly one. -/
theorem C17_one_callback_per_window (k : Nat) :
    (afterTicks (k + TICKS_PER_SECOND) TickState.initial).Calls1Hz =
      (afterTicks k TickState.initial).Calls1Hz + 1 := by
  rw [afterTicks_initial_closed, afterTicks_initial_closed]
  show (k + 10 + 9) / 10 = (k + 9) / 10 + 1
  omega

/-- C18 (as stated, refuted): on call number `2^32 + 1` the non-resetting handler, whose
32-bit counter has just wrapped to `0`, invokes the callback, while
`CFE_PSP_TimerHandler` does not (its last invocation was six calls earlier). -/
theorem C18_differs_after_wrap :
    firesOnCallModulo 4294967296 = true ∧ firesOnCall 4294967296 = false := by
  rw [firesOnCallModulo_eq, firesOnCall_eq]
  constructor <;> simp

/-- C18 (amended): for every number `N <= 2^32` of ticks, starting from counter 0,
`CFE_PSP_TimerHandler` invokes the 1Hz callback on exactly the same ticks among the
first `N` as the handler that never resets the counter, tests counter mod R and then
increments the 32-bit counter. -/
theorem C18_same_ticks_before_wrap (N n : Nat) (hN : N ≤ 2 ^ 32) (hn : n < N) :
    firesOnCall n = firesOnCallModulo n := by
  rw [firesOnCallModulo_eq, firesOnCall_eq]
  have h : n % 4294967296 = n := Nat.mod_eq_of_lt (by omega)
  rw [h]

/-- C18 witness: the first twenty ticks, at the eleventh call. -/
theorem C18_same_ticks_before_wrap_witness :
    firesOnCall 10 = firesOnCallModulo 10 :=
  C18_same_ticks_before_wrap 20 10 (by norm_num) (by norm_num)

/-- C19: starting from `TimerCounter = 0`, call `n + 1` of `CFE_PSP_TimerHandler` invokes
the 1Hz callback exactly when `n` is a multiple of `R = 10` (ticks 1, R+1, 2R+1, ...),
and for every `N >= 1`, after `N` ticks the callback has been invoked `ceil(N / R)`
times and `TimerCounter` equals `((N - 1) mod R) + 1`, a value in `1..R`. -/
theorem C19_firing_pattern (N : Nat) (hN : 1 ≤ N) :
    firesOnCall 0 = true ∧
      (∀ n, firesOnCall n = true ↔ n % TICKS_PER_SECOND = 0) ∧
      (afterTicks N TickState.initial).Calls1Hz =
        (N + TICKS_PER_SECOND - 1) / TICKS_PER_SECOND ∧
      (afterTicks N TickState.initial).TimerCounter = (N - 1) % TICKS_PER_SECOND + 1 ∧
      1 ≤ (afterTicks N TickState.initial).TimerCounter ∧
      (afterTicks N TickState.initial).TimerCounter ≤ TICKS_PER_SECOND := by
  have hne : N ≠ 0 := by omega
  have hlt := Nat.mod_lt (N - 1) (by decide : 10 > 0)
  refine ⟨by rw [firesOnCall_eq]; rfl, ?_, ?_, ?_, ?_, ?_⟩
  · intro n
    rw [firesOnCall_eq]
    simp [TICKS_PER_SECOND]
  · rw [afterTicks_initial_closed]
    show (N + 9) / 10 = (N + 10 - 1) / 10
    rfl
  · rw [afterTicks_initial_closed]
    show (if N = 0 then 0 else (N - 1) % 10 + 1) = (N - 1) % 10 + 1
    rw [if_neg hne]
  · rw [afterTicks_initial_closed]
    show 1 ≤ (if N = 0 then 0 else (N - 1) % 10 + 1)
    rw [if_neg hne]
    omega
  · rw [afterTicks_initial_closed]
    show (if N = 0 then 0 else (N - 1) % 10 + 1) ≤ 10
    rw [if_neg hne]
    omega

/-- C19 witness: after eleven ticks the callback has been invoked twice and the counter
is one. -/
theorem C19_firing_pattern_witness :
    (afterTicks 11 TickState.initial).Calls1Hz = (11 + TICKS_PER_SECOND - 1) / TICKS_PER_SECOND ∧
      (afterTicks 11 TickState.initial).TimerCounter = (11 - 1) % TICKS_PER_SECOND + 1 :=
  have h := C19_firing_pattern 11 (by decide)
  ⟨h.2.2.1, h.2.2.2.1⟩

/-! ### Claim C20 -/

/-- From any state in which the two watchdog globals agree, a call sequence keeps them in
agreement and leaves the commanded value the sequence asks for. -/
theorem WatchdogCall.run_invariant (cfg : PlatformConfig) (calls : List WatchdogCall) :
    ∀ s : WatchdogState, s.CFE_PSP_HwWatchdogValue = s.CFE_PSP_WatchdogValue →
      (WatchdogCall.run cfg calls s).CFE_PSP_HwWatchdogValue =
          (WatchdogCall.run cfg calls s).CFE_PSP_WatchdogValue ∧
        (WatchdogCall.run cfg calls s).CFE_PSP_WatchdogValue =
          WatchdogCall.commanded cfg calls s.CFE_PSP_WatchdogValue := by
  induction calls with
  | nil => intro s h; exact ⟨h, rfl⟩
  | cons c cs ih =>
    intro s h
    cases c with
    | Init => exact ih (CFE_PSP_WatchdogInit cfg s) rfl
    | Enable => exact ih (CFE_PSP_WatchdogEnable s) h
    | Disable => exact ih (CFE_PSP_WatchdogDisable s) h
    | Service => exact ih (CFE_PSP_WatchdogService s) h
    | Get => exact ih s h
    | Set v => exact ih (CFE_PSP_WatchdogSet v s) rfl

/-- C20: in every state reached from the initial state by any sequence of Init, Enable,
Disable, Service, Get and Set calls, `CFE_PSP_HwWatchdogValue` equals
`CFE_PSP_WatchdogValue`; `CFE_PSP_WatchdogGet` then returns the argument of the most
recent Set, or `CFE_PSP_WATCHDOG_MAX` if there is none since the last Init or the start;
Init and Set store the same value in both variables, and Enable, Disable, Service and
Get leave both unchanged in every state. -/
theorem C20_watchdog_invariant (cfg : PlatformConfig) (hw : Hardware)
    (calls : List WatchdogCall) :
    (WatchdogCall.run cfg calls (WatchdogState.initial cfg hw)).CFE_PSP_HwWatchdogValue =
        (WatchdogCall.run cfg calls (WatchdogState.initial cfg hw)).CFE_PSP_WatchdogValue ∧
      CFE_PSP_WatchdogGet (WatchdogCall.run cfg calls (WatchdogState.initial cfg hw)) =
        WatchdogCall.commanded cfg calls cfg.CFE_PSP_WATCHDOG_MAX ∧
      (∀ s : WatchdogState,
        (CFE_PSP_WatchdogInit cfg s).CFE_PSP_WatchdogValue = cfg.CFE_PSP_WATCHDOG_MAX ∧
        (CFE_PSP_WatchdogInit cfg s).CFE_PSP_HwWatchdogValue = cfg.CFE_PSP_WATCHDOG_MAX) ∧
      (∀ (s : WatchdogState) (v : Nat),
        (CFE_PSP_WatchdogSet v s).CFE_PSP_WatchdogValue = v ∧
        (CFE_PSP_WatchdogSet v s).CFE_PSP_HwWatchdogValue = v) ∧
      (∀ (s : WatchdogState) (c : WatchdogCall),
        c = WatchdogCall.Enable ∨ c = WatchdogCall.Disable ∨ c = WatchdogCall.Service ∨
            c = WatchdogCall.Get →
          (c.apply cfg s).CFE_PSP_WatchdogValue = s.CFE_PSP_WatchdogValue ∧
          (c.apply cfg s).CFE_PSP_HwWatchdogValue = s.CFE_PSP_HwWatchdogValue) := by
  have h := WatchdogCall.run_invariant cfg calls (WatchdogState.initial cfg hw) rfl
  refine ⟨h.1, h.2, fun _ => ⟨rfl, rfl⟩, fun _ _ => ⟨rfl, rfl⟩, ?_⟩
  intro s c hc
  rcases hc with hc | hc | hc | hc <;> subst hc <;> exact ⟨rfl, rfl⟩

/-- C20 witness: Set 5, Service, Init, Set 9, Enable, Get from the reference initial
state; the globals agree, the commanded value is 9, and Service leaves both unchanged. -/
theorem C20_watchdog_invariant_witness :
    CFE_PSP_WatchdogGet (WatchdogCall.run PlatformConfig.reference
        [.Set 5, .Service, .Init, .Set 9, .Enable, .Get]
        (WatchdogState.initial PlatformConfig.reference ⟨fun _ => 0, []⟩)) = 9 ∧
      (WatchdogCall.Service.apply PlatformConfig.reference
        (WatchdogState.initial PlatformConfig.reference ⟨fun _ => 0, []⟩)).CFE_PSP_WatchdogValue =
        (WatchdogState.initial PlatformConfig.reference ⟨fun _ => 0, []⟩).CFE_PSP_WatchdogValue :=
  have h := C20_watchdog_invariant PlatformConfig.reference ⟨fun _ => 0, []⟩
    [.Set 5, .Service, .Init, .Set 9, .Enable, .Get]
  ⟨h.2.1, (h.2.2.2.2 _ WatchdogCall.Service (Or.inr (Or.inr (Or.inl rfl)))).1⟩

/-! ### Helper lemmas for the nos-linux argument stage -/

theorem Boot.bind_outcome_of_exited {α β : Type} {m : Boot α} {st : Int} (f : α → Boot β)
    (h : m.outcome = Outcome.exited st) :
    (m >>= f).outcome = Outcome.exited st := by
  simp only [Boot.bind_eq, Boot.bind, h]

theorem NosLinux.displayUsage_outcome (cfg : PlatformConfig) (Name : String) :
    (NosLinux.CFE_PSP_DisplayUsage cfg Name).outcome = Outcome.exited 1 := rfl

theorem strncmp_eq0_pair {l : List Char} {a b : Char} {n : Nat}
    (h : strncmp_eq0 l [a, b] (n + 3) = true) : l = [a, b] := by
  match l with
  | [] => simp [strncmp_eq0] at h
  | [x] => simp [strncmp_eq0] at h
  | [x, y] =>
    simp [strncmp_eq0] at h
    rw [h.1, h.2]
  | x :: y :: z :: t => simp [strncmp_eq0] at h

/-- What the fields read by the reset classification look like after
`CFE_PSP_ProcessArgumentDefaults`. -/
theorem NosLinux.processArgumentDefaults_fields (cfg : PlatformConfig)
    (cd cd1 : NosLinux.CFE_PSP_CommandData_t)
    (h : (NosLinux.CFE_PSP_ProcessArgumentDefaults cfg cd).outcome = Outcome.returned cd1) :
    cd1.ResetType = (if cd.GotResetType = 0 then "PO" else cd.ResetType) ∧
      cd1.SubType = (if cd.GotSubType = 0 then 1 else cd.SubType) := by
  simp only [NosLinux.CFE_PSP_ProcessArgumentDefaults, Boot.bind_assoc, Boot.ite_bind,
    Boot.pure_bind, Boot.call_bind_outcome] at h
  repeat' split at h
  all_goals
    simp only [Boot.call_bind_outcome, Boot.pure_outcome, Outcome.returned.injEq] at h
    subst h
    simp only [*, if_true, if_false, and_self]

theorem NosLinux.getoptCase_resetType (cfg : PlatformConfig) (strtol : String → Int)
    (Name : String) (r : NosLinux.GetoptResult) (cd cd1 : NosLinux.CFE_PSP_CommandData_t)
    (h : (NosLinux.getoptCase cfg strtol Name r cd).outcome = Outcome.returned cd1)
    (hinv : cd.GotResetType = 0 ∨ cd.ResetType = "PO" ∨ cd.ResetType = "PR") :
    cd1.GotResetType = 0 ∨ cd1.ResetType = "PO" ∨ cd1.ResetType = "PR" := by
  have hu := NosLinux.displayUsage_outcome cfg Name
  unfold NosLinux.getoptCase at h
  split at h
  · dsimp only at h
    split at h
    · simp only [Boot.call_bind_outcome, Boot.bind_outcome_of_exited _ hu] at h
      cases h
    · rename_i hc
      simp only [Boot.call_bind_outcome, Boot.pure_outcome, Outcome.returned.injEq] at h
      subst h
      right
      show String.mk (List.take NosLinux.CFE_PSP_RESET_NAME_LENGTH r.optarg.toList) = "PO" ∨
        String.mk (List.take NosLinux.CFE_PSP_RESET_NAME_LENGTH r.optarg.toList) = "PR"
      have hPO : ∀ l : List Char, strncmp_eq0 l "PO".toList NosLinux.CFE_PSP_RESET_NAME_LENGTH = true →
          String.mk l = "PO" := by
        intro l hl
        have h2 : l = ['P', 'O'] := strncmp_eq0_pair (n := 7) hl
        rw [h2]
      have hPR : ∀ l : List Char, strncmp_eq0 l "PR".toList NosLinux.CFE_PSP_RESET_NAME_LENGTH = true →
          String.mk l = "PR" := by
        intro l hl
        have h2 : l = ['P', 'R'] := strncmp_eq0_pair (n := 7) hl
        rw [h2]
      cases hA : strncmp_eq0 (List.take NosLinux.CFE_PSP_RESET_NAME_LENGTH r.optarg.toList)
          "PO".toList NosLinux.CFE_PSP_RESET_NAME_LENGTH
      · cases hB : strncmp_eq0 (List.take NosLinux.CFE_PSP_RESET_NAME_LENGTH r.optarg.toList)
            "PR".toList NosLinux.CFE_PSP_RESET_NAME_LENGTH
        · exfalso
          apply hc
          show (!strncmp_eq0 (List.take NosLinux.CFE_PSP_RESET_NAME_LENGTH r.optarg.toList)
              "PO".toList NosLinux.CFE_PSP_RESET_NAME_LENGTH &&
            !strncmp_eq0 (List.take NosLinux.CFE_PSP_RESET_NAME_LENGTH r.optarg.toList)
              "PR".toList NosLinux.CFE_PSP_RESET_NAME_LENGTH) = true
          rw [hA, hB]
          rfl
        · exact Or.inr (hPR _ hB)
      · exact Or.inl (hPO _ hA)
  · split at h
    · dsimp only at h
      split at h
      · simp only [Boot.call_bind_outcome, Boot.bind_outcome_of_exited _ hu] at h
        cases h
      · simp only [Boot.call_bind_outcome, Boot.pure_outcome, Outcome.returned.injEq] at h
        subst h
        exact hinv
    · split at h
      · dsimp only at h
        simp only [Boot.call_bind_outcome, Boot.pure_outcome, Outcome.returned.injEq] at h
        subst h
        exact hinv
      · split at h
        · dsimp only at h
          simp only [Boot.call_bind_outcome, Boot.pure_outcome, Outcome.returned.injEq] at h
          subst h
          exact hinv
        · split at h
          · dsimp only at h
            simp only [Boot.call_bind_outcome, Boot.pure_outcome, Outcome.returned.injEq] at h
            subst h
            exact hinv
          · split at h
            · rw [Boot.bind_outcome_of_exited _ hu] at h
              cases h
            · rw [Boot.bind_outcome_of_exited _ hu] at h
              cases h

/-- The option loop only returns command data whose reset type was never given or is
exactly `"PO"` or `"PR"`. -/
theorem NosLinux.getoptLoop_resetType (cfg : PlatformConfig) (strtol : String → Int)
    (Name : String) (options : List NosLinux.GetoptResult) :
    ∀ cd cd1 : NosLinux.CFE_PSP_CommandData_t,
      (NosLinux.getoptLoop cfg strtol Name options cd).outcome = Outcome.returned cd1 →
      (cd.GotResetType = 0 ∨ cd.ResetType = "PO" ∨ cd.ResetType = "PR") →
      (cd1.GotResetType = 0 ∨ cd1.ResetType = "PO" ∨ cd1.ResetType = "PR") := by
  induction options with
  | nil =>
    intro cd cd1 h hinv
    simp only [NosLinux.getoptLoop, Boot.pure_outcome, Outcome.returned.injEq] at h
    subst h
    exact hinv
  | cons r rest ih =>
    intro cd cd1 h hinv
    simp only [NosLinux.getoptLoop] at h
    cases hcase : (NosLinux.getoptCase cfg strtol Name r cd).outcome with
    | returned cd2 =>
      rw [Boot.bind_outcome_of_returned _ hcase] at h
      exact ih cd2 cd1 h (NosLinux.getoptCase_resetType cfg strtol Name r cd cd2 hcase hinv)
    | panicked st =>
      rw [Boot.bind_outcome_of_panicked _ hcase] at h
      cases h
    | blocked =>
      simp only [Boot.bind_eq, Boot.bind, hcase] at h
      cases h
    | exited st =>
      rw [Boot.bind_outcome_of_exited _ hcase] at h
      cases h

/-- After the option loop and `CFE_PSP_ProcessArgumentDefaults` the reset type string is
exactly `"PO"` or `"PR"`. -/
theorem NosLinux.resetType_after_arguments (cfg : PlatformConfig) (strtol : String → Int)
    (Name : String) (options : List NosLinux.GetoptResult)
    (cd cd1 : NosLinux.CFE_PSP_CommandData_t)
    (hloop : (NosLinux.getoptLoop cfg strtol Name options NosLinux.CommandData_zeroed).outcome =
      Outcome.returned cd)
    (hdef : (NosLinux.CFE_PSP_ProcessArgumentDefaults cfg cd).outcome = Outcome.returned cd1) :
    cd1.ResetType = "PO" ∨ cd1.ResetType = "PR" := by
  have hinv := NosLinux.getoptLoop_resetType cfg strtol Name options _ cd hloop (Or.inl rfl)
  have hf := (NosLinux.processArgumentDefaults_fields cfg cd cd1 hdef).1
  by_cases hg : cd.GotResetType = 0
  · rw [if_pos hg] at hf
    exact Or.inl hf
  · rw [if_neg hg] at hf
    rw [hf]
    rcases hinv with h0 | h1
    · exact absurd h0 hg
    · exact h1

/-! ### Helper lemmas: the steps of the two sequencers -/

theorem Boot.filter_eq_filter_steps {α : Type} (m : Boot α) (p : Event → Bool)
    (hp : ∀ e, e.isPrint = true → p e = false) :
    m.trace.filter p = m.steps.filter p := by
  unfold Boot.steps
  induction m.trace with
  | nil => rfl
  | cons e l ih =>
    cases he : e.isPrint
    · simp only [List.filter_cons, he, Bool.not_false, if_true]
      split
      · rw [ih]
      · exact ih
    · simp only [List.filter_cons, he, hp e he, Bool.not_true, Bool.false_eq_true, if_false]
      exact ih

/-- The steps and the end of nos-linux `main` when `OS_API_Init` succeeds. -/
theorem NosLinux.main_run_of_init_ok (cfg : PlatformConfig) (env : Env)
    (cd cd1 : NosLinux.CFE_PSP_CommandData_t)
    (hdef : (NosLinux.CFE_PSP_ProcessArgumentDefaults cfg cd).outcome = Outcome.returned cd1)
    (h1 : env.OS_API_Init = cfg.OS_SUCCESS) :
    (NosLinux.main cfg env cd).steps =
        [Event.signal_SIGINT Callback.CFE_PSP_SigintHandler, Event.OS_API_Init,
          Event.OS_TimeBaseCreate "cFS-Master"] ++
        (if env.OS_TimeBaseCreate = cfg.OS_SUCCESS then
          [Event.OS_TimeBaseSet env.timebase_id 50000 50000] else []) ++
        [Event.CFE_PSP_ModuleInit, Event.sleep 1,
          Event.CFE_PSP_InitProcessorReservedMemory (NosLinux.resetTypeOf cfg cd1.ResetType),
          Event.nos_init_link,
          Event.NE_create_bus NosLinux.ENGINE_BUS_NAME NosLinux.ENGINE_SERVER_URI,
          Event.NE_bus_add_time_tick_callback Callback.CFE_PSP_NosTickCallback,
          Event.CFE_PSP_MAIN_FUNCTION (NosLinux.resetTypeOf cfg cd1.ResetType) cd1.SubType 1
            cfg.CFE_PSP_NONVOL_STARTUP_FILE,
          Event.OS_IdleLoop] ++
        (if env.shutdownRequested = true then
          [Event.CFE_PSP_DeleteProcessorReservedMemory, Event.OS_DeleteAllObjects,
            Event.NE_destroy_bus, Event.nos_destroy_link] else []) ∧
      (NosLinux.main cfg env cd).outcome =
        (if env.shutdownRequested = true then Outcome.returned 0 else Outcome.blocked) := by
  have hpr := (NosLinux.processArgumentDefaults_printsAndReturns cfg cd).2
  have hf := Boot.filter_prints_nil hpr
  have n1 : ¬ env.OS_API_Init ≠ cfg.OS_SUCCESS := fun hn => hn h1
  constructor
  · simp only [Boot.steps, NosLinux.main, Boot.bind_trace_of_returned _ hdef, List.filter_append,
      hf, NosLinux.resetTypeOf]
    by_cases hc : env.OS_TimeBaseCreate = cfg.OS_SUCCESS
    · split <;>
        simp only [Boot.callRet_bind_trace, Boot.ite_bind, if_neg n1, if_pos hc,
          Boot.bind_assoc, Boot.call_bind_trace, Boot.pure_bind, Boot.idle_bind_trace] <;>
        cases env.shutdownRequested <;> rfl
    · split <;>
        simp only [Boot.callRet_bind_trace, Boot.ite_bind, if_neg n1, if_neg hc,
          Boot.bind_assoc, Boot.call_bind_trace, Boot.pure_bind, Boot.idle_bind_trace] <;>
        cases env.shutdownRequested <;> rfl
  · simp only [NosLinux.main, Boot.bind_outcome_of_returned _ hdef]
    by_cases hc : env.OS_TimeBaseCreate = cfg.OS_SUCCESS
    · split <;>
        simp only [Boot.callRet_bind_outcome, Boot.ite_bind, if_neg n1, if_pos hc,
          Boot.bind_assoc, Boot.call_bind_outcome, Boot.pure_bind, Boot.idle_bind_outcome] <;>
        cases env.shutdownRequested <;> rfl
    · split <;>
        simp only [Boot.callRet_bind_outcome, Boot.ite_bind, if_neg n1, if_neg hc,
          Boot.bind_assoc, Boot.call_bind_outcome, Boot.pure_bind, Boot.idle_bind_outcome] <;>
        cases env.shutdownRequested <;> rfl

/-- The steps and the end of mares-rtems `CFE_PSP_Main` when `OS_API_Init`,
`OS_TimeBaseCreate` and `OS_TimeBaseSet` succeed. -/
theorem MaresRtems.main_run_of_success (cfg : PlatformConfig) (env : Env)
    (h1 : env.OS_API_Init = cfg.OS_SUCCESS)
    (h2 : env.OS_TimeBaseCreate = cfg.OS_SUCCESS)
    (h3 : env.OS_TimeBaseSet = cfg.OS_SUCCESS) :
    (MaresRtems.CFE_PSP_Main cfg env).steps =
        [Event.OS_API_Init, Event.CFE_PSP_SetupReservedMemoryMap,
          Event.OS_FileSysAddFixedMap "/eeprom" "/cf", Event.CFE_PSP_ModuleInit,
          Event.OS_TimeBaseCreate "cFS-Master",
          Event.OS_TimeBaseSet env.timebase_id 250000 250000,
          Event.CFE_PSP_InitProcessorReservedMemory cfg.CFE_PSP_RST_TYPE_POWERON,
          Event.CFE_PSP_MAIN_FUNCTION cfg.CFE_PSP_RST_TYPE_POWERON
            cfg.CFE_PSP_RST_SUBTYPE_POWER_CYCLE 1 cfg.CFE_PSP_NONVOL_STARTUP_FILE,
          Event.CFE_PSP_Setup1HzInterrupt] ∧
      (MaresRtems.CFE_PSP_Main cfg env).outcome = Outcome.returned () := by
  have n1 : ¬ env.OS_API_Init ≠ cfg.OS_SUCCESS := fun hn => hn h1
  have n3 : ¬ env.OS_TimeBaseSet ≠ cfg.OS_SUCCESS := fun hn => hn h3
  constructor
  · simp only [Boot.steps, MaresRtems.CFE_PSP_Main, MaresRtems.CFE_PSP_SetupSystemTimer,
      Boot.callRet_bind_trace, Boot.ite_bind, if_neg n1, Boot.bind_assoc, Boot.pure_bind,
      Boot.call_bind_trace, if_pos h2, if_neg n3, Boot.call_trace]
    split <;>
      simp only [Boot.pure_bind, Boot.callRet_bind_trace, Boot.call_bind_trace,
        Boot.call_trace, if_pos h2, if_neg n3, Boot.ite_bind] <;> rfl
  · simp only [MaresRtems.CFE_PSP_Main, MaresRtems.CFE_PSP_SetupSystemTimer,
      Boot.callRet_bind_outcome, Boot.ite_bind, if_neg n1, Boot.bind_assoc, Boot.pure_bind,
      Boot.call_bind_outcome, if_pos h2, if_neg n3, Boot.call_outcome]
    split <;>
      simp only [Boot.pure_bind, Boot.callRet_bind_outcome, Boot.call_bind_outcome,
        Boot.call_outcome, if_pos h2, if_neg n3, Boot.ite_bind]

theorem Event.not_timeBaseSet_of_isPrint (e : Event) (h : e.isPrint = true) :
    e.isTimeBaseSet = false := by
  cases e <;> first | rfl | cases h

theorem Event.not_tickCallbackRegistration_of_isPrint (e : Event) (h : e.isPrint = true) :
    e.isTickCallbackRegistration = false := by
  cases e <;> first | rfl | cases h

theorem Event.not_initReservedMemory_of_isPrint (e : Event) (h : e.isPrint = true) :
    e.isInitReservedMemory = false := by
  cases e <;> first | rfl | cases h

theorem Event.not_entryPoint_of_isPrint_all (e : Event) (h : e.isPrint = true) :
    e.isEntryPoint = false :=
  Event.not_entryPoint_of_isPrint h

theorem Event.not_panic_of_isPrint_all (e : Event) (h : e.isPrint = true) :
    e.isPanic = false :=
  Event.not_panic_of_isPrint h

/-- The steps of nos-linux `main` when `OS_API_Init` fails. -/
theorem NosLinux.main_steps_of_init_failure (cfg : PlatformConfig) (env : Env)
    (cd : NosLinux.CFE_PSP_CommandData_t) (h : env.OS_API_Init ≠ cfg.OS_SUCCESS) :
    (NosLinux.main cfg env cd).steps =
      [Event.signal_SIGINT Callback.CFE_PSP_SigintHandler, Event.OS_API_Init,
        Event.CFE_PSP_Panic env.OS_API_Init] := by
  obtain ⟨⟨cd1, hcd⟩, hpr⟩ := NosLinux.processArgumentDefaults_printsAndReturns cfg cd
  have hf := Boot.filter_prints_nil hpr
  simp only [Boot.steps, NosLinux.main, Boot.bind_trace_of_returned _ hcd, List.filter_append, hf]
  split <;>
    simp only [Boot.callRet_bind_trace, Boot.ite_bind, if_pos h, Boot.bind_assoc,
      Boot.call_bind_trace, Boot.panic_bind_trace, Boot.pure_bind] <;> rfl

/-- When `OS_API_Init` succeeds and the timebase cannot be created or armed, mares-rtems
`CFE_PSP_Main` never calls the entry point. -/
theorem MaresRtems.main_no_entry_of_timebase_failure (cfg : PlatformConfig) (env : Env)
    (h1 : env.OS_API_Init = cfg.OS_SUCCESS)
    (h : env.OS_TimeBaseCreate ≠ cfg.OS_SUCCESS ∨ env.OS_TimeBaseSet ≠ cfg.OS_SUCCESS) :
    (MaresRtems.CFE_PSP_Main cfg env).trace.filter Event.isEntryPoint = [] := by
  obtain ⟨st, ho, hfil⟩ := MaresRtems.setupSystemTimer_panics cfg env h
  have n1 : ¬ env.OS_API_Init ≠ cfg.OS_SUCCESS := fun hn => hn h1
  simp only [MaresRtems.CFE_PSP_Main, Boot.callRet_bind_trace, Boot.ite_bind,
    if_neg n1, Boot.bind_assoc, Boot.pure_bind, Boot.call_bind_trace]
  split <;>
    simp only [Boot.pure_bind, Boot.call_bind_trace, Boot.bind_trace_of_panicked _ ho,
      List.filter_cons, Event.isEntryPoint, hfil] <;> rfl

/-- On a reset type string that is exactly `"PO"` or `"PR"`, the two-character prefix
test of `main` selects the processor reset exactly for `"PR"`. -/
theorem NosLinux.resetTypeOf_eq (cfg : PlatformConfig) (ResetType : String)
    (h : ResetType = "PO" ∨ ResetType = "PR") :
    NosLinux.resetTypeOf cfg ResetType =
      (if ResetType = "PR" then cfg.CFE_PSP_RST_TYPE_PROCESSOR
        else cfg.CFE_PSP_RST_TYPE_POWERON) := by
  rcases h with h | h <;> rw [h] <;> rfl

/-! ### Claim C11 -/

theorem afterTicks_handler_comm (n : Nat) (s : TickState) :
    afterTicks n (CFE_PSP_TimerHandler s) = CFE_PSP_TimerHandler (afterTicks n s) := by
  induction n with
  | zero => rfl
  | succ k ih =>
    show CFE_PSP_TimerHandler (afterTicks k (CFE_PSP_TimerHandler s)) =
      CFE_PSP_TimerHandler (CFE_PSP_TimerHandler (afterTicks k s))
    rw [ih]

/-- With `CFE_PSP_NosTickCallback` as the only registered callback, a tick stream has the
effect of one call of `CFE_PSP_TimerHandler` per tick. -/
theorem deliverTicks_nosTickCallback (times : List Nat) :
    ∀ s : TickState,
      deliverTicks [Callback.CFE_PSP_NosTickCallback] times s = afterTicks times.length s := by
  induction times with
  | nil => intro s; rfl
  | cons t ts ih =>
    intro s
    show deliverTicks [Callback.CFE_PSP_NosTickCallback] ts (CFE_PSP_NosTickCallback t s) =
      CFE_PSP_TimerHandler (afterTicks ts.length s)
    rw [ih, ← afterTicks_handler_comm]
    rfl

theorem registeredTickCallbacks_eq_steps {α : Type} (m : Boot α) :
    registeredTickCallbacks m.trace = registeredTickCallbacks m.steps := by
  unfold Boot.steps registeredTickCallbacks
  induction m.trace with
  | nil => rfl
  | cons e l ih =>
    cases e <;>
      simp only [List.filterMap_cons, List.filter_cons, Event.isPrint, Bool.not_true,
        Bool.not_false, Bool.false_eq_true, if_true, if_false, ih]

/-- C11: in nos-linux `main`, if `OS_API_Init` succeeds and `OS_TimeBaseCreate` fails,
the steps of the run are exactly: signal installation, init, the failed creation, module
init, sleep, reserved-memory initialisation, link and bus creation, one registration of
`CFE_PSP_NosTickCallback`, then one call of the entry point, then the idle loop (and the
teardown if a shutdown is requested); there is no panic and no call of
`OS_TimeBaseSet`.  The callbacks registered on the external bus are exactly
`CFE_PSP_NosTickCallback`, which calls `CFE_PSP_TimerHandler`, so every tick stream the
bus delivers has the effect of one handler call per tick, and from the initial divider
state after `N` external ticks the 1Hz callback has been invoked `ceil(N / R)` times:
the 1Hz signal is derived from the external tick stream alone. -/
theorem C11_missing_timebase_not_fatal (cfg : PlatformConfig) (env : Env)
    (CommandData : NosLinux.CFE_PSP_CommandData_t)
    (h1 : env.OS_API_Init = cfg.OS_SUCCESS)
    (hc : env.OS_TimeBaseCreate ≠ cfg.OS_SUCCESS) :
    (∃ reset_type reset_subtype,
      (NosLinux.main cfg env CommandData).steps =
        [Event.signal_SIGINT Callback.CFE_PSP_SigintHandler, Event.OS_API_Init,
          Event.OS_TimeBaseCreate "cFS-Master", Event.CFE_PSP_ModuleInit, Event.sleep 1,
          Event.CFE_PSP_InitProcessorReservedMemory reset_type, Event.nos_init_link,
          Event.NE_create_bus NosLinux.ENGINE_BUS_NAME NosLinux.ENGINE_SERVER_URI,
          Event.NE_bus_add_time_tick_callback Callback.CFE_PSP_NosTickCallback,
          Event.CFE_PSP_MAIN_FUNCTION reset_type reset_subtype 1
            cfg.CFE_PSP_NONVOL_STARTUP_FILE,
          Event.OS_IdleLoop] ++
        (if env.shutdownRequested = true then
          [Event.CFE_PSP_DeleteProcessorReservedMemory, Event.OS_DeleteAllObjects,
            Event.NE_destroy_bus, Event.nos_destroy_link] else [])) ∧
      (NosLinux.main cfg env CommandData).trace.filter Event.isPanic = [] ∧
      (∀ status, (NosLinux.main cfg env CommandData).outcome ≠ Outcome.panicked status) ∧
      (NosLinux.main cfg env CommandData).trace.filter Event.isTimeBaseSet = [] ∧
      ((NosLinux.main cfg env CommandData).trace.filter
        Event.isTickCallbackRegistration).length = 1 ∧
      ((NosLinux.main cfg env CommandData).trace.filter Event.isEntryPoint).length = 1 ∧
      firstIndex Event.isTickCallbackRegistration (NosLinux.main cfg env CommandData).steps <
        firstIndex Event.isEntryPoint (NosLinux.main cfg env CommandData).steps ∧
      registeredTickCallbacks (NosLinux.main cfg env CommandData).trace =
        [Callback.CFE_PSP_NosTickCallback] ∧
      (∀ (time : Nat) (s : TickState),
        CFE_PSP_NosTickCallback time s = CFE_PSP_TimerHandler s) ∧
      (∀ (times : List Nat) (s : TickState),
        deliverTicks (registeredTickCallbacks (NosLinux.main cfg env CommandData).trace)
          times s = afterTicks times.length s) ∧
      (∀ times : List Nat,
        (deliverTicks (registeredTickCallbacks (NosLinux.main cfg env CommandData).trace)
          times TickState.initial).Calls1Hz =
          (times.length + (TICKS_PER_SECOND - 1)) / TICKS_PER_SECOND) := by
  obtain ⟨⟨cd1, hcd⟩, _⟩ := NosLinux.processArgumentDefaults_printsAndReturns cfg CommandData
  obtain ⟨hsteps, hout⟩ := NosLinux.main_run_of_init_ok cfg env CommandData cd1 hcd h1
  rw [if_neg hc] at hsteps
  have hreg : registeredTickCallbacks (NosLinux.main cfg env CommandData).trace =
      [Callback.CFE_PSP_NosTickCallback] := by
    rw [registeredTickCallbacks_eq_steps, hsteps]
    cases env.shutdownRequested <;> rfl
  refine ⟨⟨_, _, hsteps⟩, ?_, ?_, ?_, ?_, ?_, ?_, hreg, fun _ _ => rfl, ?_, ?_⟩
  · rw [Boot.filter_eq_filter_steps _ _ Event.not_panic_of_isPrint_all, hsteps]
    cases env.shutdownRequested <;> rfl
  · intro status
    rw [hout]
    cases env.shutdownRequested <;> simp
  · rw [Boot.filter_eq_filter_steps _ _ Event.not_timeBaseSet_of_isPrint, hsteps]
    cases env.shutdownRequested <;> rfl
  · rw [Boot.filter_eq_filter_steps _ _ Event.not_tickCallbackRegistration_of_isPrint, hsteps]
    cases env.shutdownRequested <;> rfl
  · rw [Boot.filter_eq_filter_steps _ _ Event.not_entryPoint_of_isPrint_all, hsteps]
    cases env.shutdownRequested <;> rfl
  · rw [hsteps]
    cases env.shutdownRequested <;> exact Nat.lt_succ_self 8
  · intro times s
    rw [hreg]
    exact deliverTicks_nosTickCallback times s
  · intro times
    rw [hreg, deliverTicks_nosTickCallback, afterTicks_initial_closed]
    rfl

/-- C11 witness: `OS_TimeBaseCreate` returns `-1` under the reference configuration; no
`OS_TimeBaseSet`, one entry-point call, and eleven external ticks give two invocations of
the 1Hz callback. -/
theorem C11_missing_timebase_not_fatal_witness :
    (NosLinux.main PlatformConfig.reference { Env.nominal with OS_TimeBaseCreate := -1 }
        NosLinux.commandData_PR_3).trace.filter Event.isTimeBaseSet = [] ∧
      ((NosLinux.main PlatformConfig.reference { Env.nominal with OS_TimeBaseCreate := -1 }
        NosLinux.commandData_PR_3).trace.filter Event.isEntryPoint).length = 1 ∧
      (deliverTicks (registeredTickCallbacks
          (NosLinux.main PlatformConfig.reference { Env.nominal with OS_TimeBaseCreate := -1 }
            NosLinux.commandData_PR_3).trace)
          [0, 1, 2, 3, 4, 5, 6, 7, 8, 9, 10] TickState.initial).Calls1Hz = 2 :=
  have h := C11_missing_timebase_not_fatal PlatformConfig.reference
    { Env.nominal with OS_TimeBaseCreate := -1 } NosLinux.commandData_PR_3 rfl (by decide)
  ⟨h.2.2.2.1, h.2.2.2.2.2.1, h.2.2.2.2.2.2.2.2.2.2 [0, 1, 2, 3, 4, 5, 6, 7, 8, 9, 10]⟩

/-! ### Claim C12 -/

/-- C12 (as stated, refuted): on the run in which every step succeeds (reference
configuration, nominal environment), mares-rtems `CFE_PSP_Main` calls the entry point
(step 7) before the 1Hz wiring `CFE_PSP_Setup1HzInterrupt` (step 8), and nos-linux `main`
creates the timebase (step 2) before module initialisation (step 4), which comes before
the reserved-memory preparation (step 6). -/
theorem C12_order_differs :
    (MaresRtems.CFE_PSP_Main PlatformConfig.reference Env.nominal).outcome =
        Outcome.returned () ∧
      firstIndex Event.isEntryPoint
        (MaresRtems.CFE_PSP_Main PlatformConfig.reference Env.nominal).steps = 7 ∧
      firstIndex Event.isSetup1Hz
        (MaresRtems.CFE_PSP_Main PlatformConfig.reference Env.nominal).steps = 8 ∧
      (NosLinux.main PlatformConfig.reference Env.nominal NosLinux.commandData_PR_3).outcome =
        Outcome.returned 0 ∧
      firstIndex Event.isTimeBaseCreate
        (NosLinux.main PlatformConfig.reference Env.nominal NosLinux.commandData_PR_3).steps = 2 ∧
      firstIndex Event.isModuleInit
        (NosLinux.main PlatformConfig.reference Env.nominal NosLinux.commandData_PR_3).steps = 4 ∧
      firstIndex Event.isInitReservedMemory
        (NosLinux.main PlatformConfig.reference Env.nominal NosLinux.commandData_PR_3).steps = 6 := by
  refine ⟨rfl, rfl, rfl, rfl, rfl, rfl, rfl⟩

/-- C12 (amended): on a run in which every step succeeds, mares-rtems `CFE_PSP_Main`
performs, each exactly once and in this order: OS layer initialisation, reserved-memory
map setup, path-alias mapping, module initialisation, timebase creation and arming,
reserved-memory initialisation, the call of the entry point, and only then the 1Hz
wiring; nos-linux `main` performs, each exactly once and in this order: signal
installation, OS layer initialisation, timebase creation and arming, module
initialisation, sleep, reserved-memory initialisation, tick-source wiring (link, bus,
callback registration), the call of the entry point, then the idle loop and, on
shutdown, the teardown. -/
theorem C12_startup_order (cfg : PlatformConfig) (env : Env)
    (CommandData : NosLinux.CFE_PSP_CommandData_t)
    (h1 : env.OS_API_Init = cfg.OS_SUCCESS)
    (h2 : env.OS_TimeBaseCreate = cfg.OS_SUCCESS)
    (h3 : env.OS_TimeBaseSet = cfg.OS_SUCCESS) :
    (MaresRtems.CFE_PSP_Main cfg env).steps =
        [Event.OS_API_Init, Event.CFE_PSP_SetupReservedMemoryMap,
          Event.OS_FileSysAddFixedMap "/eeprom" "/cf", Event.CFE_PSP_ModuleInit,
          Event.OS_TimeBaseCreate "cFS-Master",
          Event.OS_TimeBaseSet env.timebase_id 250000 250000,
          Event.CFE_PSP_InitProcessorReservedMemory cfg.CFE_PSP_RST_TYPE_POWERON,
          Event.CFE_PSP_MAIN_FUNCTION cfg.CFE_PSP_RST_TYPE_POWERON
            cfg.CFE_PSP_RST_SUBTYPE_POWER_CYCLE 1 cfg.CFE_PSP_NONVOL_STARTUP_FILE,
          Event.CFE_PSP_Setup1HzInterrupt] ∧
      ∃ reset_type reset_subtype,
        (NosLinux.main cfg env CommandData).steps =
          [Event.signal_SIGINT Callback.CFE_PSP_SigintHandler, Event.OS_API_Init,
            Event.OS_TimeBaseCreate "cFS-Master",
            Event.OS_TimeBaseSet env.timebase_id 50000 50000,
            Event.CFE_PSP_ModuleInit, Event.sleep 1,
            Event.CFE_PSP_InitProcessorReservedMemory reset_type, Event.nos_init_link,
            Event.NE_create_bus NosLinux.ENGINE_BUS_NAME NosLinux.ENGINE_SERVER_URI,
            Event.NE_bus_add_time_tick_callback Callback.CFE_PSP_NosTickCallback,
            Event.CFE_PSP_MAIN_FUNCTION reset_type reset_subtype 1
              cfg.CFE_PSP_NONVOL_STARTUP_FILE,
            Event.OS_IdleLoop] ++
          (if env.shutdownRequested = true then
            [Event.CFE_PSP_DeleteProcessorReservedMemory, Event.OS_DeleteAllObjects,
              Event.NE_destroy_bus, Event.nos_destroy_link] else []) := by
  obtain ⟨⟨cd1, hcd⟩, _⟩ := NosLinux.processArgumentDefaults_printsAndReturns cfg CommandData
  obtain ⟨hsteps, _⟩ := NosLinux.main_run_of_init_ok cfg env CommandData cd1 hcd h1
  rw [if_pos h2] at hsteps
  exact ⟨(MaresRtems.main_run_of_success cfg env h1 h2 h3).1, _, _, hsteps⟩

/-- C12 witness: the nominal environment under the reference configuration. -/
theorem C12_startup_order_witness :
    (MaresRtems.CFE_PSP_Main PlatformConfig.reference Env.nominal).steps =
      [Event.OS_API_Init, Event.CFE_PSP_SetupReservedMemoryMap,
        Event.OS_FileSysAddFixedMap "/eeprom" "/cf", Event.CFE_PSP_ModuleInit,
        Event.OS_TimeBaseCreate "cFS-Master", Event.OS_TimeBaseSet 7 250000 250000,
        Event.CFE_PSP_InitProcessorReservedMemory 2,
        Event.CFE_PSP_MAIN_FUNCTION 2 1 1 "/cf/cfe_es_startup.scr",
        Event.CFE_PSP_Setup1HzInterrupt] :=
  (C12_startup_order PlatformConfig.reference Env.nominal NosLinux.commandData_PR_3
    rfl rfl rfl).1

/-! ### Claim C14 -/

/-- C14: in nos-linux `main`, when `OS_API_Init` succeeds, the entry point is called and
then `OS_IdleLoop`; if no shutdown is requested the run blocks there and no step follows
`OS_IdleLoop`; if one is requested the steps after `OS_IdleLoop` are exactly
`CFE_PSP_DeleteProcessorReservedMemory`, `OS_DeleteAllObjects`, `NE_destroy_bus` and
`nos_destroy_link`, each once, and `main` returns `0`; no such teardown step occurs
before `OS_IdleLoop`. -/
theorem C14_shutdown_teardown (cfg : PlatformConfig) (env : Env)
    (CommandData : NosLinux.CFE_PSP_CommandData_t)
    (h1 : env.OS_API_Init = cfg.OS_SUCCESS) :
    ∃ startup reset_type reset_subtype,
      (NosLinux.main cfg env CommandData).steps =
        startup ++
        [Event.CFE_PSP_MAIN_FUNCTION reset_type reset_subtype 1
            cfg.CFE_PSP_NONVOL_STARTUP_FILE, Event.OS_IdleLoop] ++
        (if env.shutdownRequested = true then
          [Event.CFE_PSP_DeleteProcessorReservedMemory, Event.OS_DeleteAllObjects,
            Event.NE_destroy_bus, Event.nos_destroy_link] else []) ∧
      (∀ e ∈ startup, e ≠ Event.OS_IdleLoop ∧ e ≠ Event.CFE_PSP_DeleteProcessorReservedMemory ∧
        e ≠ Event.OS_DeleteAllObjects ∧ e ≠ Event.NE_destroy_bus ∧
        e ≠ Event.nos_destroy_link) ∧
      (NosLinux.main cfg env CommandData).outcome =
        (if env.shutdownRequested = true then Outcome.returned 0 else Outcome.blocked) := by
  obtain ⟨⟨cd1, hcd⟩, _⟩ := NosLinux.processArgumentDefaults_printsAndReturns cfg CommandData
  obtain ⟨hsteps, hout⟩ := NosLinux.main_run_of_init_ok cfg env CommandData cd1 hcd h1
  refine ⟨[Event.signal_SIGINT Callback.CFE_PSP_SigintHandler, Event.OS_API_Init,
      Event.OS_TimeBaseCreate "cFS-Master"] ++
    (if env.OS_TimeBaseCreate = cfg.OS_SUCCESS then
      [Event.OS_TimeBaseSet env.timebase_id 50000 50000] else []) ++
    [Event.CFE_PSP_ModuleInit, Event.sleep 1,
      Event.CFE_PSP_InitProcessorReservedMemory (NosLinux.resetTypeOf cfg cd1.ResetType),
      Event.nos_init_link,
      Event.NE_create_bus NosLinux.ENGINE_BUS_NAME NosLinux.ENGINE_SERVER_URI,
      Event.NE_bus_add_time_tick_callback Callback.CFE_PSP_NosTickCallback],
    NosLinux.resetTypeOf cfg cd1.ResetType, cd1.SubType, ?_, ?_, hout⟩
  · rw [hsteps]
    simp only [List.append_assoc, List.cons_append, List.nil_append]
  · intro e he
    simp only [List.mem_append, List.mem_cons, List.mem_singleton, List.not_mem_nil,
      or_false] at he
    rcases he with ((he | he | he) | he) | he | he | he | he | he | he
    · subst he; exact ⟨by simp, by simp, by simp, by simp, by simp⟩
    · subst he; exact ⟨by simp, by simp, by simp, by simp, by simp⟩
    · subst he; exact ⟨by simp, by simp, by simp, by simp, by simp⟩
    · by_cases hc : env.OS_TimeBaseCreate = cfg.OS_SUCCESS
      · simp only [if_pos hc, List.mem_singleton] at he
        subst he; exact ⟨by simp, by simp, by simp, by simp, by simp⟩
      · simp only [if_neg hc, List.not_mem_nil] at he
    · subst he; exact ⟨by simp, by simp, by simp, by simp, by simp⟩
    · subst he; exact ⟨by simp, by simp, by simp, by simp, by simp⟩
    · subst he; exact ⟨by simp, by simp, by simp, by simp, by simp⟩
    · subst he; exact ⟨by simp, by simp, by simp, by simp, by simp⟩
    · subst he; exact ⟨by simp, by simp, by simp, by simp, by simp⟩
    · subst he; exact ⟨by simp, by simp, by simp, by simp, by simp⟩

/-- C14 witness: the nominal environment, in which a shutdown is requested. -/
theorem C14_shutdown_teardown_witness :
    (NosLinux.main PlatformConfig.reference Env.nominal NosLinux.commandData_PR_3).outcome =
      (if Env.nominal.shutdownRequested = true then Outcome.returned 0 else Outcome.blocked) := by
  obtain ⟨_, _, _, _, _, h⟩ := C14_shutdown_teardown PlatformConfig.reference Env.nominal
    NosLinux.commandData_PR_3 rfl
  exact h

/-! ### Claim C13 -/

/-- C13: on every run that reaches it, each sequencer calls the entry point exactly once.
mares-rtems `CFE_PSP_Main` calls it with (POWERON, POWER_CYCLE, 1, startup file), right
after its only call of `CFE_PSP_InitProcessorReservedMemory`, made with POWERON.
nos-linux `main`, on command data `cd` returned by the option loop, calls it with
(reset_type, reset_subtype, 1, startup file), where reset_subtype is the `SubType` left
by `CFE_PSP_ProcessArgumentDefaults`, the reset type string is then `"PO"` or `"PR"`,
reset_type is PROCESSOR exactly when it is `"PR"` and POWERON otherwise, and the only
call of `CFE_PSP_InitProcessorReservedMemory` comes earlier with the same reset_type. -/
theorem C13_entry_point_handoff (cfg : PlatformConfig) (env : Env)
    (strtol : String → Int) (Name : String) (options : List NosLinux.GetoptResult)
    (cd : NosLinux.CFE_PSP_CommandData_t)
    (hloop : (NosLinux.getoptLoop cfg strtol Name options NosLinux.CommandData_zeroed).outcome =
      Outcome.returned cd) :
    ((MaresRtems.CFE_PSP_Main cfg env).trace.filter Event.isEntryPoint ≠ [] →
      (MaresRtems.CFE_PSP_Main cfg env).trace.filter Event.isEntryPoint =
        [Event.CFE_PSP_MAIN_FUNCTION cfg.CFE_PSP_RST_TYPE_POWERON
          cfg.CFE_PSP_RST_SUBTYPE_POWER_CYCLE 1 cfg.CFE_PSP_NONVOL_STARTUP_FILE] ∧
      (MaresRtems.CFE_PSP_Main cfg env).trace.filter Event.isInitReservedMemory =
        [Event.CFE_PSP_InitProcessorReservedMemory cfg.CFE_PSP_RST_TYPE_POWERON] ∧
      firstIndex Event.isInitReservedMemory (MaresRtems.CFE_PSP_Main cfg env).steps + 1 =
        firstIndex Event.isEntryPoint (MaresRtems.CFE_PSP_Main cfg env).steps) ∧
    ((NosLinux.main cfg env cd).trace.filter Event.isEntryPoint ≠ [] →
      ∃ cd1, (NosLinux.CFE_PSP_ProcessArgumentDefaults cfg cd).outcome = Outcome.returned cd1 ∧
        (cd1.ResetType = "PO" ∨ cd1.ResetType = "PR") ∧
        (NosLinux.main cfg env cd).trace.filter Event.isEntryPoint =
          [Event.CFE_PSP_MAIN_FUNCTION
            (if cd1.ResetType = "PR" then cfg.CFE_PSP_RST_TYPE_PROCESSOR
              else cfg.CFE_PSP_RST_TYPE_POWERON)
            cd1.SubType 1 cfg.CFE_PSP_NONVOL_STARTUP_FILE] ∧
        (NosLinux.main cfg env cd).trace.filter Event.isInitReservedMemory =
          [Event.CFE_PSP_InitProcessorReservedMemory
            (if cd1.ResetType = "PR" then cfg.CFE_PSP_RST_TYPE_PROCESSOR
              else cfg.CFE_PSP_RST_TYPE_POWERON)] ∧
        firstIndex Event.isInitReservedMemory (NosLinux.main cfg env cd).steps <
          firstIndex Event.isEntryPoint (NosLinux.main cfg env cd).steps) := by
  constructor
  · intro hne
    by_cases h1 : env.OS_API_Init = cfg.OS_SUCCESS
    · by_cases h2 : env.OS_TimeBaseCreate = cfg.OS_SUCCESS
      · by_cases h3 : env.OS_TimeBaseSet = cfg.OS_SUCCESS
        · have hsteps := (MaresRtems.main_run_of_success cfg env h1 h2 h3).1
          refine ⟨?_, ?_, ?_⟩
          · rw [Boot.filter_eq_filter_steps _ _ Event.not_entryPoint_of_isPrint_all, hsteps]
            rfl
          · rw [Boot.filter_eq_filter_steps _ _ Event.not_initReservedMemory_of_isPrint, hsteps]
            rfl
          · rw [hsteps]
            rfl
        · exact absurd
            (MaresRtems.main_no_entry_of_timebase_failure cfg env h1 (Or.inr h3)) hne
      · exact absurd
          (MaresRtems.main_no_entry_of_timebase_failure cfg env h1 (Or.inl h2)) hne
    · exfalso
      apply hne
      rw [(MaresRtems.main_of_init_failure cfg env h1).1]
      rfl
  · intro hne
    by_cases h1 : env.OS_API_Init = cfg.OS_SUCCESS
    · obtain ⟨⟨cd1, hcd⟩, _⟩ := NosLinux.processArgumentDefaults_printsAndReturns cfg cd
      have hrt := NosLinux.resetType_after_arguments cfg strtol Name options cd cd1 hloop hcd
      obtain ⟨hsteps, _⟩ := NosLinux.main_run_of_init_ok cfg env cd cd1 hcd h1
      rw [NosLinux.resetTypeOf_eq cfg cd1.ResetType hrt] at hsteps
      refine ⟨cd1, hcd, hrt, ?_, ?_, ?_⟩
      · rw [Boot.filter_eq_filter_steps _ _ Event.not_entryPoint_of_isPrint_all, hsteps]
        by_cases hc : env.OS_TimeBaseCreate = cfg.OS_SUCCESS
        · rw [if_pos hc]
          cases env.shutdownRequested <;> rfl
        · rw [if_neg hc]
          cases env.shutdownRequested <;> rfl
      · rw [Boot.filter_eq_filter_steps _ _ Event.not_initReservedMemory_of_isPrint, hsteps]
        by_cases hc : env.OS_TimeBaseCreate = cfg.OS_SUCCESS
        · rw [if_pos hc]
          cases env.shutdownRequested <;> rfl
        · rw [if_neg hc]
          cases env.shutdownRequested <;> rfl
      · rw [hsteps]
        by_cases hc : env.OS_TimeBaseCreate = cfg.OS_SUCCESS
        · rw [if_pos hc]
          cases env.shutdownRequested <;> exact Nat.lt_add_of_pos_right (by decide : 0 < 4)
        · rw [if_neg hc]
          cases env.shutdownRequested <;> exact Nat.lt_add_of_pos_right (by decide : 0 < 4)
    · exfalso
      apply hne
      rw [Boot.filter_eq_filter_steps _ _ Event.not_entryPoint_of_isPrint_all,
        NosLinux.main_steps_of_init_failure cfg env cd h1]
      rfl

/-- C13 witness: the command line `-R PR -S 3` under the reference configuration and the
nominal environment; the option loop returns, and the whole of `main`, banner and
option loop included, calls the entry point once with (PROCESSOR, 3, 1, startup file). -/
theorem C13_entry_point_handoff_witness :
    (NosLinux.getoptLoop PlatformConfig.reference (fun _ => 3) "core-cpu1"
        [⟨'R', "PR"⟩, ⟨'S', "3"⟩] NosLinux.CommandData_zeroed).outcome =
        Outcome.returned NosLinux.commandData_PR_3 ∧
      (MaresRtems.CFE_PSP_Main PlatformConfig.reference Env.nominal).trace.filter
          Event.isEntryPoint =
        [Event.CFE_PSP_MAIN_FUNCTION 2 1 1 "/cf/cfe_es_startup.scr"] ∧
      (NosLinux.main_from_argv PlatformConfig.reference Env.nominal (fun _ => 3) "core-cpu1"
          [⟨'R', "PR"⟩, ⟨'S', "3"⟩]).trace.filter Event.isEntryPoint =
        [Event.CFE_PSP_MAIN_FUNCTION 1 3 1 "/cf/cfe_es_startup.scr"] :=
  have h := C13_entry_point_handoff PlatformConfig.reference Env.nominal (fun _ => 3)
    "core-cpu1" [⟨'R', "PR"⟩, ⟨'S', "3"⟩] NosLinux.commandData_PR_3 rfl
  ⟨rfl, (h.1 (by
      intro hn
      have h2 : (MaresRtems.CFE_PSP_Main PlatformConfig.reference Env.nominal).trace.filter
          Event.isEntryPoint = [Event.CFE_PSP_MAIN_FUNCTION 2 1 1 "/cf/cfe_es_startup.scr"] := rfl
      rw [h2] at hn
      cases hn)).1, rfl⟩

end PSP
